import Mathlib

/-!
Verification of the rubric scoring and ranking-quality aggregation engine of the
VOX-Trace-GUI repository.

The Python sources are embedded shallowly:
* floating point numbers are idealized as exact rationals (for the scorers) or
  reals (for the NDCG computations, which involve log2);
* Python round(x, n) is modelled by roundHE below (round half to even on exact
  values; binary float representation error is idealized away);
* Python dicts that are only iterated and summed are modelled as association
  lists; dict .get with a default is modelled by List.lookup plus getD;
* code paths that raise a Python exception (AttributeError on .get of a
  non-dict) are modelled with Except.
-/

/-- Round to the nearest integer, ties to even, mirroring CPython round() on
exactly represented values. -/
def roundHE {α : Type} [LinearOrderedField α] [FloorRing α] (x : α) : ℤ :=
  let f := ⌊x⌋
  let frac := x - (f : α)
  if frac < 1/2 then f
  else if 1/2 < frac then f + 1
  else if f % 2 = 0 then f else f + 1

/-- Python round(x, n): round x to n decimal digits. -/
def pyRound {α : Type} [LinearOrderedField α] [FloorRing α] (n : ℕ) (x : α) : α :=
  (roundHE (x * 10 ^ n) : α) / 10 ^ n

theorem roundHE_eq_floor_or_succ {α : Type} [LinearOrderedField α] [FloorRing α] (x : α) :
    roundHE x = ⌊x⌋ ∨ roundHE x = ⌊x⌋ + 1 := by
  simp only [roundHE]
  split_ifs <;> simp

theorem le_roundHE {α : Type} [LinearOrderedField α] [FloorRing α] {m : ℤ} {x : α}
    (h : (m : α) ≤ x) : m ≤ roundHE x := by
  have hf : m ≤ ⌊x⌋ := Int.le_floor.mpr h
  rcases roundHE_eq_floor_or_succ x with h' | h' <;> omega

theorem roundHE_le {α : Type} [LinearOrderedField α] [FloorRing α] {m : ℤ} {x : α}
    (h : x ≤ (m : α)) : roundHE x ≤ m := by
  have hf : ⌊x⌋ ≤ m := by
    have := Int.floor_le_floor (α := α) h
    simpa using this
  rcases roundHE_eq_floor_or_succ x with h' | h'
  · omega
  · rcases lt_or_eq_of_le hf with hlt | heq
    · omega
    · exfalso
      have hxm : (⌊x⌋ : α) = (m : α) := by rw [heq]
      have hfr2 : x - (⌊x⌋ : α) < 1/2 := by
        rw [hxm]; linarith
      simp only [roundHE] at h'
      rw [if_pos hfr2] at h'
      omega

theorem roundHE_intCast {α : Type} [LinearOrderedField α] [FloorRing α] (m : ℤ) :
    roundHE (m : α) = m :=
  le_antisymm (roundHE_le le_rfl) (le_roundHE le_rfl)

theorem roundHE_eq_of_lt_half {α : Type} [LinearOrderedField α] [FloorRing α]
    {m : ℤ} {x : α} (h1 : (m : α) ≤ x) (h2 : x < (m : α) + 1/2) :
    roundHE x = m := by
  have hfl : ⌊x⌋ = m := by
    rw [Int.floor_eq_iff]
    constructor
    · exact h1
    · have : (1 : α)/2 < 1 := by norm_num
      linarith
  simp only [roundHE, hfl]
  rw [if_pos (show x - (m : α) < 1/2 by linarith)]

theorem roundHE_eq_succ_of_half_lt {α : Type} [LinearOrderedField α] [FloorRing α]
    {m : ℤ} {x : α} (h1 : (m : α) + 1/2 < x) (h2 : x < (m : α) + 1) :
    roundHE x = m + 1 := by
  have hfl : ⌊x⌋ = m := by
    rw [Int.floor_eq_iff]
    constructor
    · have : (0:α) < 1/2 := by norm_num
      linarith
    · exact_mod_cast h2
  simp only [roundHE, hfl]
  rw [if_neg (show ¬(x - (m : α) < 1/2) by push_neg; linarith),
    if_pos (show (1:α)/2 < x - (m : α) by linarith)]

theorem pyRound_nonneg {α : Type} [LinearOrderedField α] [FloorRing α] (n : ℕ)
    {x : α} (hx : 0 ≤ x) : 0 ≤ pyRound n x := by
  have h1 : (0 : ℤ) ≤ roundHE (x * 10 ^ n) := by
    apply le_roundHE
    push_cast
    positivity
  unfold pyRound
  have h2 : (0 : α) ≤ (roundHE (x * 10 ^ n) : α) := by exact_mod_cast h1
  positivity

theorem pyRound_le_one {α : Type} [LinearOrderedField α] [FloorRing α] (n : ℕ)
    {x : α} (hx : x ≤ 1) : pyRound n x ≤ 1 := by
  have h1 : roundHE (x * 10 ^ n) ≤ (10 ^ n : ℤ) := by
    apply roundHE_le
    push_cast
    have hp : (0:α) < 10 ^ n := by positivity
    nlinarith
  unfold pyRound
  rw [div_le_one (by positivity)]
  calc (roundHE (x * 10 ^ n) : α) ≤ ((10 ^ n : ℤ) : α) := by exact_mod_cast h1
    _ = 10 ^ n := by push_cast; ring

theorem pyRound_one {α : Type} [LinearOrderedField α] [FloorRing α] (n : ℕ) :
    pyRound n (1 : α) = 1 := by
  unfold pyRound
  rw [one_mul]
  have : ((10:α) ^ n) = (((10 ^ n : ℤ)) : α) := by push_cast; ring
  rw [this, roundHE_intCast]
  rw [div_self]
  have hp : (0:ℤ) < 10 ^ n := by positivity
  exact_mod_cast hp.ne'

/-- Python str.upper, character by character.  (String.toUpper of the Lean
stdlib maps the same Char.toUpper over the string, but through a byte-level
loop that the kernel cannot evaluate; this formulation reduces.)  Both Python
and Char.toUpper uppercase the ASCII letters, the only letters that occur in
the judge answers. -/
def pyUpper (s : String) : String := String.mk (s.data.map Char.toUpper)

theorem pyUpper_YES : pyUpper "YES" = "YES" := by decide

theorem pyUpper_Yes : pyUpper "Yes" = "YES" := by decide

theorem pyUpper_NO : pyUpper "NO" = "NO" := by decide

theorem pyUpper_NA : pyUpper "NA" = "NA" := by decide

theorem pyUpper_Maybe : pyUpper "Maybe" = "MAYBE" := by decide

/-! ## grade_traces.py : weighted rubric scoring -/

namespace GradeTraces

/-- grade_traces.py, lines 48-67: module-level weight table. The same literal
table appears in structured_query_store_evaluator.py (src/unnamed/part_000). -/
def DEFAULT_SCORE_MAPPING_DICT : List (String × ℚ) :=
  [("is_serving_matched", 3), ("is_serving_more_than_three_items", 2),
   ("is_primary_serving", 2), ("is_dietary_serving", 3), ("is_flavor_match", 1),
   ("is_ingredient_present", 3), ("is_prep_style_matched", 1),
   ("is_exact_restaurant", 3), ("is_similar_restaurant", 2),
   ("is_portion_matched", 1), ("is_group_matched", 1), ("is_nearby", 2),
   ("is_fast_delivery", 2), ("is_top_rated", 2), ("is_overall_rating_good", 2),
   ("is_store_open", 3), ("is_price_match", 2), ("is_fast_delivery_check", 2)]

/-- Python dict .get(criterion, 0) on a weight table. -/
def weightOf (table : List (String × ℚ)) (criterion : String) : ℚ :=
  (table.lookup criterion).getD 0

/-- The accumulation loop of grade_traces.py lines 450-458: earned and
applicable points.  Answers other than Yes and No (in particular the NA
encoding, the string NA to Query) contribute to neither sum. -/
def scoreLoop (table : List (String × ℚ)) : List (String × String) → ℚ × ℚ
  | [] => (0, 0)
  | (criterion, answer) :: rest =>
    let ea := scoreLoop table rest
    let weight := weightOf table criterion
    if answer = "Yes" then (ea.1 + weight, ea.2 + weight)
    else if answer = "No" then (ea.1, ea.2 + weight)
    else ea

/-- grade_traces.py lines 445-466, calculate_weighted_score.  The weight table
is a parameter: grade_traces fixes it to DEFAULT_SCORE_MAPPING_DICT (line 451);
the near-duplicate scorer of the structured-query evaluator
(src/unnamed/part_000, compute_row_score at line 321) receives it as
self.score_mapping_dict.  Returns (weighted_pct, earned, applicable). -/
def calculate_weighted_score (table : List (String × ℚ)) (scores : List (String × String)) :
    ℚ × ℚ × ℚ :=
  let ea := scoreLoop table scores
  let weighted_pct := if 0 < ea.2 then ea.1 / ea.2 * 100 else 0
  (weighted_pct, ea.1, ea.2)

theorem scoreLoop_characterization (table : List (String × ℚ))
    (scores : List (String × String))
    (hbin : ∀ p ∈ scores, p.2 = "Yes" ∨ p.2 = "No" ∨ p.2 = "NA to Query") :
    (scoreLoop table scores).1 =
      ((scores.filter (fun p => p.2 == "Yes")).map (fun p => weightOf table p.1)).sum ∧
    (scoreLoop table scores).2 =
      ((scores.filter (fun p => !(p.2 == "NA to Query"))).map (fun p => weightOf table p.1)).sum := by
  induction scores with
  | nil => simp [scoreLoop]
  | cons hd tl ih =>
    obtain ⟨ih1, ih2⟩ := ih (fun p hp => hbin p (List.mem_cons_of_mem hd hp))
    rcases hbin hd (List.mem_cons_self hd tl) with h | h | h <;>
      obtain ⟨c, a⟩ := hd <;> simp only at h <;> subst h <;>
      simp [scoreLoop, List.filter_cons, ih1, ih2] <;> (try constructor) <;>
      (first | trivial | ring)

end GradeTraces

/-! ## fuzzy_query_eval.py : per-store scoring and NDCG -/

namespace FuzzyQueryEval

/-- The nine per-check answers extracted from the judge JSON by
calculate_store_score (fuzzy_query_eval.py lines 204-214).  The nesting of the
source record (intent_match / constraints / personalization) is flattened; the
field names keep the question keys. -/
structure EvalResult where
  q1_menu_matches_query_intent : String
  q2_covers_all_modifiers : String
  q3_price_limit_met : String
  q4_location_within_range : String
  q5_speed_requirement_met : String
  q6_quality_rating_met : String
  q7_dietary_need_met : String
  q8_matches_customer_preferences : String
  q9_avoids_customer_hard_avoids : String

/-- The answers dict of fuzzy_query_eval.py lines 191-214 in iteration order,
paired with the weight table of lines 191-201 (q8 weight is dynamic). -/
def answersList (e : EvalResult) (q8_weight : ℚ) : List (ℚ × String) :=
  [(3, e.q1_menu_matches_query_intent), (2, e.q2_covers_all_modifiers),
   (1, e.q3_price_limit_met), (1, e.q4_location_within_range),
   (1, e.q5_speed_requirement_met), (1, e.q6_quality_rating_met),
   (2, e.q7_dietary_need_met), (q8_weight, e.q8_matches_customer_preferences),
   (2, e.q9_avoids_customer_hard_avoids)]

/-- The loop of fuzzy_query_eval.py lines 217-226 (also lines 232-238 for the
intent-match subset): accumulate (total_weight, earned_weight).  An answer
whose uppercase form is NA is skipped; any other answer adds its weight to the
total, and adds it to earned exactly when its uppercase form is YES. -/
def weightLoop : List (ℚ × String) → ℚ × ℚ
  | [] => (0, 0)
  | (w, ans) :: rest =>
    let ta := weightLoop rest
    if pyUpper ans = "NA" then ta
    else (ta.1 + w, ta.2 + if pyUpper ans = "YES" then w else 0)

/-- The unrounded percentage of fuzzy_query_eval.py line 229:
earned_weight / total_weight * 100 when total_weight > 0, else 0. -/
def rawScorePct (e : EvalResult) (q8_weight : ℚ) : ℚ :=
  let ta := weightLoop (answersList e q8_weight)
  if 0 < ta.1 then ta.2 / ta.1 * 100 else 0

/-- The unrounded intent-match percentage of fuzzy_query_eval.py lines 232-240,
over q1 and q2 only. -/
def rawIntentScore (e : EvalResult) : ℚ :=
  let ia := weightLoop [(3, e.q1_menu_matches_query_intent), (2, e.q2_covers_all_modifiers)]
  if 0 < ia.1 then ia.2 / ia.1 * 100 else 0

/-- The record returned by calculate_store_score (fuzzy_query_eval.py lines
243-250).  The echoed raw answers field is omitted; score_pct and
intent_match_score carry the 2-decimal rounding applied at construction. -/
structure StoreScore where
  score_pct : ℚ
  earned_weight : ℚ
  total_weight : ℚ
  intent_match_score : ℚ
  is_relevant : Bool
  deriving DecidableEq, Repr

/-- fuzzy_query_eval.py lines 182-250, calculate_store_score. -/
def calculate_store_score (e : EvalResult) (q8_weight : ℚ) : StoreScore :=
  let ta := weightLoop (answersList e q8_weight)
  { score_pct := pyRound 2 (rawScorePct e q8_weight)
    earned_weight := ta.2
    total_weight := ta.1
    intent_match_score := pyRound 2 (rawIntentScore e)
    is_relevant := decide (0 < rawIntentScore e) }

/-- Base-2 logarithm, np.log2 and math.log2 of the sources. -/
noncomputable def log2r (x : ℝ) : ℝ := Real.logb 2 x

/-- The DCG accumulation loops of fuzzy_query_eval.py lines 266-276 (and the
inline copy at lines 443-448), starting at position pos: each element
contributes (score_pct / 100) / log2 (position + 2). -/
noncomputable def dcgFrom : ℕ → List ℝ → ℝ
  | _, [] => 0
  | pos, r :: rest => r / 100 / log2r ((pos : ℝ) + 2) + dcgFrom (pos + 1) rest

/-- Insertion step of a stable descending sort, the value-level behavior of
Python sorted(..., reverse=True) used at fuzzy_query_eval.py line 272. -/
noncomputable def insertDesc (x : ℝ) : List ℝ → List ℝ
  | [] => [x]
  | y :: ys => if y ≤ x then x :: y :: ys else y :: insertDesc x ys

/-- Python sorted(scores, reverse=True): scores in descending order. -/
noncomputable def sortDesc (l : List ℝ) : List ℝ := l.foldr insertDesc []

/-- fuzzy_query_eval.py lines 253-281, calculate_ndcg, on the list of score_pct
values of the store records (k of None is the Python default). -/
noncomputable def calculate_ndcg (store_scores : List ℝ) (k : Option ℕ) : ℝ :=
  if store_scores.isEmpty then 0
  else
    let kk := match k with
      | none => store_scores.length
      | some k0 => min k0 store_scores.length
    let dcg := dcgFrom 0 (store_scores.take kk)
    let ideal_scores := (sortDesc store_scores).take kk
    let idcg := dcgFrom 0 ideal_scores
    if idcg = 0 then 0 else pyRound 4 (dcg / idcg)

theorem one_le_log2r_ofNat (pos : ℕ) : 1 ≤ log2r ((pos : ℝ) + 2) := by
  have h2 : (0:ℝ) < 2 := by norm_num
  calc (1:ℝ) = Real.logb 2 2 := (Real.logb_self_eq_one (by norm_num)).symm
    _ ≤ Real.logb 2 ((pos : ℝ) + 2) := by
        apply Real.logb_le_logb_of_le (by norm_num) h2
        have : (0:ℝ) ≤ (pos : ℝ) := Nat.cast_nonneg pos
        linarith

theorem log2r_ofNat_pos (pos : ℕ) : 0 < log2r ((pos : ℝ) + 2) :=
  lt_of_lt_of_le one_pos (one_le_log2r_ofNat pos)

theorem log2r_ofNat_mono (pos : ℕ) :
    log2r ((pos : ℝ) + 2) ≤ log2r (((pos + 1 : ℕ) : ℝ) + 2) := by
  apply Real.logb_le_logb_of_le (by norm_num)
  · have : (0:ℝ) ≤ (pos : ℝ) := Nat.cast_nonneg pos
    linarith
  · push_cast
    linarith

theorem dcgFrom_nonneg (l : List ℝ) (pos : ℕ) (h : ∀ x ∈ l, 0 ≤ x) :
    0 ≤ dcgFrom pos l := by
  induction l generalizing pos with
  | nil => simp [dcgFrom]
  | cons r rest ih =>
    have hr : 0 ≤ r := h r (List.mem_cons_self r rest)
    have ht := ih (pos + 1) (fun x hx => h x (List.mem_cons_of_mem r hx))
    have hterm : 0 ≤ r / 100 / log2r ((pos : ℝ) + 2) :=
      div_nonneg (div_nonneg hr (by norm_num)) (log2r_ofNat_pos pos).le
    simp only [dcgFrom]
    linarith

theorem dcgFrom_pos_of_mem (l : List ℝ) (pos : ℕ) (h : ∀ x ∈ l, 0 ≤ x)
    (hex : ∃ x ∈ l, 0 < x) : 0 < dcgFrom pos l := by
  induction l generalizing pos with
  | nil => simp at hex
  | cons r rest ih =>
    have ht : 0 ≤ dcgFrom (pos + 1) rest :=
      dcgFrom_nonneg rest (pos + 1) (fun x hx => h x (List.mem_cons_of_mem r hx))
    obtain ⟨x, hx, hxpos⟩ := hex
    rcases List.mem_cons.mp hx with rfl | hx'
    · have hterm : 0 < x / 100 / log2r ((pos : ℝ) + 2) :=
        div_pos (div_pos hxpos (by norm_num)) (log2r_ofNat_pos pos)
      simp only [dcgFrom]
      linarith
    · have hr : 0 ≤ r := h r (List.mem_cons_self r rest)
      have hterm : 0 ≤ r / 100 / log2r ((pos : ℝ) + 2) :=
        div_nonneg (div_nonneg hr (by norm_num)) (log2r_ofNat_pos pos).le
      have ht' := ih (pos + 1) (fun y hy => h y (List.mem_cons_of_mem r hy)) ⟨x, hx', hxpos⟩
      simp only [dcgFrom]
      linarith

theorem dcgFrom_cons_le_insertDesc (s : List ℝ) (pos : ℕ) (x : ℝ) :
    dcgFrom pos (x :: s) ≤ dcgFrom pos (insertDesc x s) := by
  induction s generalizing pos with
  | nil => simp [insertDesc]
  | cons y ys ih =>
    by_cases hxy : y ≤ x
    · simp [insertDesc, hxy]
    · push_neg at hxy
      have hdp := log2r_ofNat_pos pos
      have hdq := log2r_ofNat_pos (pos + 1)
      have hdm := log2r_ofNat_mono pos
      have hIH := ih (pos + 1)
      have hswap : x / 100 / log2r ((pos : ℝ) + 2)
            + y / 100 / log2r (((pos + 1 : ℕ) : ℝ) + 2)
          ≤ y / 100 / log2r ((pos : ℝ) + 2)
            + x / 100 / log2r (((pos + 1 : ℕ) : ℝ) + 2) := by
        have hkey : (y - x) / log2r (((pos + 1 : ℕ) : ℝ) + 2)
            ≤ (y - x) / log2r ((pos : ℝ) + 2) := by
          apply div_le_div_of_nonneg_left (by linarith) hdp hdm
        have h100 : (0:ℝ) < 100 := by norm_num
        rw [div_div, div_div, div_div, div_div]
        rw [div_add_div _ _ (by positivity) (by positivity),
          div_add_div _ _ (by positivity) (by positivity)]
        rw [div_le_div_iff₀ (by positivity) (by positivity)]
        rw [div_le_div_iff₀ (by positivity) (by positivity)] at hkey
        nlinarith [mul_pos hdp hdq, mul_pos (mul_pos h100 hdp) (mul_pos h100 hdq)]
      simp only [insertDesc, if_neg (not_le.mpr hxy), dcgFrom]
      have hlhs : dcgFrom pos (x :: y :: ys)
          = x / 100 / log2r ((pos : ℝ) + 2)
            + (y / 100 / log2r (((pos + 1 : ℕ) : ℝ) + 2) + dcgFrom (pos + 1 + 1) ys) := by
        simp [dcgFrom]
      have hrhs : dcgFrom (pos + 1) (x :: ys)
          = x / 100 / log2r (((pos + 1 : ℕ) : ℝ) + 2) + dcgFrom (pos + 1 + 1) ys := by
        simp [dcgFrom]
      rw [hrhs] at hIH
      linarith

theorem dcgFrom_le_sortDesc (l : List ℝ) (pos : ℕ) :
    dcgFrom pos l ≤ dcgFrom pos (sortDesc l) := by
  induction l generalizing pos with
  | nil => simp [sortDesc]
  | cons x t ih =>
    have h1 : dcgFrom pos (x :: t) ≤ dcgFrom pos (x :: sortDesc t) := by
      simp only [dcgFrom]
      have := ih (pos + 1)
      linarith
    have h2 := dcgFrom_cons_le_insertDesc (sortDesc t) pos x
    calc dcgFrom pos (x :: t) ≤ dcgFrom pos (x :: sortDesc t) := h1
      _ ≤ dcgFrom pos (insertDesc x (sortDesc t)) := h2
      _ = dcgFrom pos (sortDesc (x :: t)) := by simp [sortDesc]

theorem insertDesc_length (x : ℝ) (s : List ℝ) :
    (insertDesc x s).length = s.length + 1 := by
  induction s with
  | nil => simp [insertDesc]
  | cons y ys ih =>
    by_cases hxy : y ≤ x <;> simp [insertDesc, hxy, ih]

theorem sortDesc_length (l : List ℝ) : (sortDesc l).length = l.length := by
  induction l with
  | nil => simp [sortDesc]
  | cons x t ih =>
    simp only [sortDesc, List.foldr_cons] at ih ⊢
    rw [insertDesc_length, ih]
    simp

theorem insertDesc_perm (x : ℝ) (s : List ℝ) : List.Perm (insertDesc x s) (x :: s) := by
  induction s with
  | nil => simp [insertDesc]
  | cons y ys ih =>
    by_cases hxy : y ≤ x
    · simp [insertDesc, hxy]
    · simp only [insertDesc, if_neg hxy]
      exact (List.Perm.cons y ih).trans (List.Perm.swap x y ys)


theorem sortDesc_perm (l : List ℝ) : List.Perm (sortDesc l) l := by
  induction l with
  | nil => simp [sortDesc]
  | cons x t ih =>
    simp only [sortDesc, List.foldr_cons] at ih ⊢
    exact (insertDesc_perm x _).trans (List.Perm.cons x ih)

theorem sortDesc_eq_self_of_sorted (l : List ℝ)
    (h : List.Pairwise (fun a b => b ≤ a) l) : sortDesc l = l := by
  induction l with
  | nil => simp [sortDesc]
  | cons x t ih =>
    have ht := ih (List.Pairwise.sublist (List.sublist_cons_self x t) h)
    simp only [sortDesc, List.foldr_cons] at ht ⊢
    rw [ht]
    cases t with
    | nil => simp [insertDesc]
    | cons y ys =>
      have hxy : y ≤ x := (List.pairwise_cons.mp h).1 y (List.mem_cons_self y ys)
      simp [insertDesc, hxy]

theorem log2r_two : log2r 2 = 1 := Real.logb_self_eq_one (by norm_num)

theorem log2r_four : log2r 4 = 2 := by
  have h : (4:ℝ) = 2 ^ (2:ℕ) := by norm_num
  rw [log2r, h, Real.logb_pow, Real.logb_self_eq_one (by norm_num)]
  norm_num

theorem log2r_three_lb : (84:ℝ)/53 < log2r 3 := by
  have hlog2 : (0:ℝ) < Real.log 2 := Real.log_pos (by norm_num)
  have key : ((2:ℝ) ^ (84:ℕ)) < ((3:ℝ) ^ (53:ℕ)) := by norm_num
  have hlt := Real.log_lt_log (by positivity) key
  rw [Real.log_pow, Real.log_pow] at hlt
  rw [log2r, ← Real.log_div_log, lt_div_iff₀ hlog2]
  push_cast at hlt
  linarith

theorem log2r_three_ub : log2r 3 < (485:ℝ)/306 := by
  have hlog2 : (0:ℝ) < Real.log 2 := Real.log_pos (by norm_num)
  have key : ((3:ℝ) ^ (306:ℕ)) < ((2:ℝ) ^ (485:ℕ)) := by norm_num
  have hlt := Real.log_lt_log (by positivity) key
  rw [Real.log_pow, Real.log_pow] at hlt
  rw [log2r, ← Real.log_div_log, div_lt_iff₀ hlog2]
  push_cast at hlt
  linarith

theorem log2r_three_pos : 0 < log2r 3 := by
  have := log2r_three_lb
  linarith [show (0:ℝ) < 84/53 by norm_num]

theorem dcgFrom_eq_sum (l : List ℝ) (pos : ℕ) :
    dcgFrom pos l =
      ∑ i ∈ Finset.range l.length,
        l.getD i 0 / 100 / log2r ((pos : ℝ) + (i : ℝ) + 2) := by
  induction l generalizing pos with
  | nil => simp [dcgFrom]
  | cons r rest ih =>
    rw [List.length_cons, Finset.sum_range_succ']
    simp only [List.getD_cons_succ, List.getD_cons_zero]
    rw [dcgFrom, ih (pos + 1)]
    push_cast
    have hsum : (∑ x ∈ Finset.range rest.length,
          rest.getD x 0 / 100 / log2r ((pos : ℝ) + 1 + (x : ℝ) + 2)) =
        ∑ x ∈ Finset.range rest.length,
          rest.getD x 0 / 100 / log2r ((pos : ℝ) + ((x : ℝ) + 1) + 2) := by
      apply Finset.sum_congr rfl
      intro i _
      rw [show (pos : ℝ) + 1 + (i : ℝ) + 2 = (pos : ℝ) + ((i : ℝ) + 1) + 2 by ring]
    rw [hsum, show (pos : ℝ) + 0 + 2 = (pos : ℝ) + 2 by ring]
    ring

theorem calculate_ndcg_none_eq (l : List ℝ) (hne : l ≠ []) :
    calculate_ndcg l none =
      if dcgFrom 0 (sortDesc l) = 0 then 0
      else pyRound 4 (dcgFrom 0 l / dcgFrom 0 (sortDesc l)) := by
  have hempty : l.isEmpty = false := by
    cases l with
    | nil => exact absurd rfl hne
    | cons a t => rfl
  have htake : l.take l.length = l := List.take_length l
  have htake2 : (sortDesc l).take l.length = sortDesc l := by
    rw [← sortDesc_length l]
    exact List.take_length (sortDesc l)
  simp only [calculate_ndcg, hempty, Bool.false_eq_true, if_false, htake, htake2]

theorem sortDesc_pair_eval : sortDesc [(99.99:ℝ), 100] = [100, 99.99] := by
  simp only [sortDesc, List.foldr_cons, List.foldr_nil, insertDesc]
  rw [if_neg (by norm_num)]

theorem one_lt_log2r_three : (1:ℝ) < log2r 3 := by
  have := log2r_three_lb
  have h84 : (1:ℝ) < 84/53 := by norm_num
  linarith

theorem log2r_three_lt_two : log2r 3 < 2 := by
  have := log2r_three_ub
  have h485 : (485:ℝ)/306 < 2 := by norm_num
  linarith

theorem dcg_pair_eval : dcgFrom 0 [(99.99:ℝ), 100] = 99.99/100 + 1 / log2r 3 := by
  norm_num [dcgFrom, log2r_two]

theorem idcg_pair_eval : dcgFrom 0 [(100:ℝ), 99.99] = 1 + (99.99/100) / log2r 3 := by
  norm_num [dcgFrom, log2r_two]

theorem calculate_ndcg_rounds_to_one : calculate_ndcg [(99.99:ℝ), 100] none = 1 := by
  have hL1 : (1:ℝ) < log2r 3 := one_lt_log2r_three
  have hL2 : log2r 3 < 2 := log2r_three_lt_two
  have hLpos : (0:ℝ) < log2r 3 := by linarith
  have hdcg : dcgFrom 0 [(99.99:ℝ), 100] = 99.99/100 + 1 / log2r 3 := dcg_pair_eval
  have hidcg : dcgFrom 0 [(100:ℝ), 99.99] = 1 + (99.99/100) / log2r 3 := idcg_pair_eval
  rw [calculate_ndcg_none_eq _ (by simp), sortDesc_pair_eval, hdcg, hidcg]
  have hu1 : 1 / log2r 3 < 1 := by
    rw [div_lt_one hLpos]
    exact hL1
  have hu2 : (1:ℝ)/2 < 1 / log2r 3 := one_div_lt_one_div_of_lt hLpos hL2
  have hB : (0:ℝ) < 1 + (99.99/100) / log2r 3 := by
    have : (0:ℝ) ≤ (99.99/100) / log2r 3 := by positivity
    linarith
  rw [if_neg hB.ne']
  have hlt1 : (99.99/100 + 1 / log2r 3) / (1 + (99.99/100) / log2r 3) < 1 := by
    rw [div_lt_one hB]
    have hdq : (99.99:ℝ)/100 / log2r 3 = (99.99/100) * (1 / log2r 3) := by ring
    nlinarith [hu1]
  have hgt1 : (99995:ℝ)/100000 < (99.99/100 + 1 / log2r 3) / (1 + (99.99/100) / log2r 3) := by
    rw [lt_div_iff₀ hB]
    have hq : (99.99:ℝ)/100 / log2r 3 = (99.99/100) * (1 / log2r 3) := by ring
    rw [hq]
    nlinarith [hu2]
  unfold pyRound
  have hr : roundHE ((99.99/100 + 1 / log2r 3) / (1 + (99.99/100) / log2r 3) * 10 ^ (4:ℕ))
      = 10000 := by
    have h9999 : roundHE ((99.99/100 + 1 / log2r 3) / (1 + (99.99/100) / log2r 3) * 10 ^ (4:ℕ))
        = 9999 + 1 := by
      apply roundHE_eq_succ_of_half_lt
      · push_cast
        nlinarith [hgt1]
      · push_cast
        nlinarith [hlt1]
    rw [h9999]
    norm_num
  rw [hr]
  norm_num

end FuzzyQueryEval

/-! ## evaluate_from_csv_v2.py : nDCG at 5 -/

namespace EvalCsvV2

open FuzzyQueryEval

/-- The DCG loops of evaluate_from_csv_v2.py lines 91 and 96: each element
contributes score / log2 (i + 2) with NO division by 100 (the weighted scores
live on a 0-10 scale). -/
noncomputable def dcgRaw : ℕ → List ℝ → ℝ
  | _, [] => 0
  | pos, s :: rest => s / log2r ((pos : ℝ) + 2) + dcgRaw (pos + 1) rest

/-- evaluate_from_csv_v2.py lines 71-99, calculate_ndcg_at_5.  The ideal DCG is
computed from a constant perfect score of 10.0 at every position, not from the
input scores sorted descending. -/
noncomputable def calculate_ndcg_at_5 (weighted_scores : List ℝ) : ℝ :=
  if weighted_scores.isEmpty then 0
  else
    let dcg := dcgRaw 0 weighted_scores
    let idcg := dcgRaw 0 (List.replicate weighted_scores.length 10)
    if 0 < idcg then dcg / idcg else 0

end EvalCsvV2

/-! ## Claim C1 -/

/-- C1: for every weight table (rubric of binary checks) and every complete
answer set drawn from Yes / No / NA-to-Query, calculate_weighted_score returns
earned_points equal to the sum of the weights of the checks answered Yes,
applicable_points equal to the sum of the weights of the checks not answered
NA, and, whenever some points are applicable, score_pct equal to
earned / applicable * 100. -/
theorem rubric_scorer_sums_weights (table : List (String × ℚ))
    (scores : List (String × String))
    (hbin : ∀ p ∈ scores, p.2 = "Yes" ∨ p.2 = "No" ∨ p.2 = "NA to Query") :
    (GradeTraces.calculate_weighted_score table scores).2.1 =
      ((scores.filter (fun p => p.2 == "Yes")).map
        (fun p => GradeTraces.weightOf table p.1)).sum ∧
    (GradeTraces.calculate_weighted_score table scores).2.2 =
      ((scores.filter (fun p => !(p.2 == "NA to Query"))).map
        (fun p => GradeTraces.weightOf table p.1)).sum ∧
    (0 < (GradeTraces.calculate_weighted_score table scores).2.2 →
      (GradeTraces.calculate_weighted_score table scores).1 =
        (GradeTraces.calculate_weighted_score table scores).2.1 /
          (GradeTraces.calculate_weighted_score table scores).2.2 * 100) := by
  obtain ⟨h1, h2⟩ := GradeTraces.scoreLoop_characterization table scores hbin
  refine ⟨h1, h2, fun hpos => ?_⟩
  simp only [GradeTraces.calculate_weighted_score] at hpos ⊢
  rw [if_pos hpos]

/-- Witness for C1 at Scenario A: weights a=3, b=2, c=1 and answers a=Pass,
b=Fail, c=NotApplicable give earned 3, applicable 5, score_pct 60. -/
theorem rubric_scorer_sums_weights_witness :
    (GradeTraces.calculate_weighted_score [("a", 3), ("b", 2), ("c", 1)]
      [("a", "Yes"), ("b", "No"), ("c", "NA to Query")]).1 = 60 ∧
    (GradeTraces.calculate_weighted_score [("a", 3), ("b", 2), ("c", 1)]
      [("a", "Yes"), ("b", "No"), ("c", "NA to Query")]).2.1 = 3 ∧
    (GradeTraces.calculate_weighted_score [("a", 3), ("b", 2), ("c", 1)]
      [("a", "Yes"), ("b", "No"), ("c", "NA to Query")]).2.2 = 5 := by
  obtain ⟨he, ha, hp⟩ := rubric_scorer_sums_weights [("a", 3), ("b", 2), ("c", 1)]
    [("a", "Yes"), ("b", "No"), ("c", "NA to Query")] (by decide)
  have hap : (0 : ℚ) <
      (GradeTraces.calculate_weighted_score [("a", 3), ("b", 2), ("c", 1)]
        [("a", "Yes"), ("b", "No"), ("c", "NA to Query")]).2.2 := by
    rw [ha]
    simp [GradeTraces.weightOf, List.filter, List.lookup]
    norm_num
  refine ⟨?_, ?_, ?_⟩
  · rw [hp hap, he, ha]
    simp [GradeTraces.weightOf, List.filter, List.lookup]
    norm_num
  · rw [he]; simp [GradeTraces.weightOf, List.filter, List.lookup]
  · rw [ha]
    simp [GradeTraces.weightOf, List.filter, List.lookup]
    norm_num

/-! ## Claim C4 -/

/-- C4 counterexample: the list with the single score 0 is already in
descending-sorted order with all scores identical, yet calculate_ndcg returns
0.0 rather than 1.0 (its ideal DCG is 0); and the list 99.99, 100 is not in
descending-sorted order, yet calculate_ndcg returns exactly 1.0 because the
result is rounded to 4 decimal places.  So ndcg equal to 1 is neither implied
by nor implies the presented order being sorted. -/
theorem ndcg_eq_one_iff_sorted_counterexample :
    FuzzyQueryEval.calculate_ndcg [(0:ℝ)] none = 0 ∧
    List.Pairwise (fun a b : ℝ => b ≤ a) [(0:ℝ)] ∧ (0:ℝ) ≠ 1 ∧
    FuzzyQueryEval.calculate_ndcg [(99.99:ℝ), 100] none = 1 ∧
    FuzzyQueryEval.sortDesc [(99.99:ℝ), 100] ≠ [(99.99:ℝ), 100] := by
  refine ⟨?_, ?_, by norm_num, FuzzyQueryEval.calculate_ndcg_rounds_to_one, ?_⟩
  · rw [FuzzyQueryEval.calculate_ndcg_none_eq _ (by simp)]
    have hs : FuzzyQueryEval.sortDesc [(0:ℝ)] = [0] := by
      simp [FuzzyQueryEval.sortDesc, FuzzyQueryEval.insertDesc]
    rw [hs]
    have hz : FuzzyQueryEval.dcgFrom 0 [(0:ℝ)] = 0 := by
      simp [FuzzyQueryEval.dcgFrom]
    rw [if_pos hz]
  · simp
  · rw [FuzzyQueryEval.sortDesc_pair_eval]
    intro h
    have := List.head_eq_of_cons_eq h
    norm_num at this

/-- C4 (amended): for every non-empty ranked list of nonnegative scores,
0 ≤ ndcg ≤ 1; and if the presented order is already descending-sorted and at
least one score is positive, ndcg is exactly 1.  The original two-sided
equivalence fails: an all-zero list is sorted but yields 0, and the 4-decimal
rounding of the returned value can yield 1.0 for a non-sorted list. -/
theorem ndcg_bounds_and_sorted_eq_one (l : List ℝ) (hne : l ≠ [])
    (hnn : ∀ x ∈ l, 0 ≤ x) :
    0 ≤ FuzzyQueryEval.calculate_ndcg l none ∧
    FuzzyQueryEval.calculate_ndcg l none ≤ 1 ∧
    (List.Pairwise (fun a b : ℝ => b ≤ a) l → (∃ x ∈ l, 0 < x) →
      FuzzyQueryEval.calculate_ndcg l none = 1) := by
  rw [FuzzyQueryEval.calculate_ndcg_none_eq l hne]
  have hnn2 : ∀ x ∈ FuzzyQueryEval.sortDesc l, 0 ≤ x := fun x hx =>
    hnn x ((FuzzyQueryEval.sortDesc_perm l).mem_iff.mp hx)
  by_cases hz : FuzzyQueryEval.dcgFrom 0 (FuzzyQueryEval.sortDesc l) = 0
  · rw [if_pos hz]
    refine ⟨le_refl 0, by norm_num, fun hs hex => ?_⟩
    exfalso
    obtain ⟨x, hx, hxpos⟩ := hex
    have hex2 : ∃ x ∈ FuzzyQueryEval.sortDesc l, 0 < x :=
      ⟨x, (FuzzyQueryEval.sortDesc_perm l).mem_iff.mpr hx, hxpos⟩
    exact (FuzzyQueryEval.dcgFrom_pos_of_mem _ 0 hnn2 hex2).ne' hz
  · rw [if_neg hz]
    have hidcg_pos : 0 < FuzzyQueryEval.dcgFrom 0 (FuzzyQueryEval.sortDesc l) :=
      lt_of_le_of_ne (FuzzyQueryEval.dcgFrom_nonneg _ 0 hnn2) (Ne.symm hz)
    have hdcg_nonneg : 0 ≤ FuzzyQueryEval.dcgFrom 0 l :=
      FuzzyQueryEval.dcgFrom_nonneg l 0 hnn
    have hle := FuzzyQueryEval.dcgFrom_le_sortDesc l 0
    refine ⟨pyRound_nonneg 4 (div_nonneg hdcg_nonneg hidcg_pos.le),
      pyRound_le_one 4 ((div_le_one hidcg_pos).mpr hle), fun hs hex => ?_⟩
    have hss := FuzzyQueryEval.sortDesc_eq_self_of_sorted l hs
    rw [hss] at hz ⊢
    rw [div_self hz]
    exact pyRound_one 4

/-- Witness for C4 at the concrete sorted list 100, 50. -/
theorem ndcg_bounds_and_sorted_eq_one_witness :
    0 ≤ FuzzyQueryEval.calculate_ndcg [(100:ℝ), 50] none ∧
    FuzzyQueryEval.calculate_ndcg [(100:ℝ), 50] none ≤ 1 ∧
    FuzzyQueryEval.calculate_ndcg [(100:ℝ), 50] none = 1 := by
  obtain ⟨h0, h1, h2⟩ := ndcg_bounds_and_sorted_eq_one [(100:ℝ), 50] (by simp)
    (by
      intro x hx
      simp only [List.mem_cons, List.mem_singleton, List.not_mem_nil, or_false] at hx
      rcases hx with rfl | rfl <;> norm_num)
  refine ⟨h0, h1, h2 ?_ ?_⟩
  · refine List.pairwise_cons.mpr ⟨?_, ?_⟩
    · intro b hb
      simp at hb
      rw [hb]
      norm_num
    · simp
  · exact ⟨100, by simp, by norm_num⟩

/-! ## Claim C2 -/

namespace FuzzyQueryEval

theorem calculate_ndcg_some_eq (l : List ℝ) (hne : l ≠ []) (k0 : ℕ) :
    calculate_ndcg l (some k0) =
      if dcgFrom 0 ((sortDesc l).take (min k0 l.length)) = 0 then 0
      else pyRound 4 (dcgFrom 0 (l.take (min k0 l.length)) /
        dcgFrom 0 ((sortDesc l).take (min k0 l.length))) := by
  have hempty : l.isEmpty = false := by
    cases l with
    | nil => exact absurd rfl hne
    | cons a t => rfl
  simp only [calculate_ndcg, hempty, Bool.false_eq_true, if_false]

theorem dcgFrom_zero_eq_sum (l : List ℝ) :
    dcgFrom 0 l = ∑ i ∈ Finset.range l.length, l.getD i 0 / 100 / log2r ((i : ℝ) + 2) := by
  rw [dcgFrom_eq_sum]
  apply Finset.sum_congr rfl
  intro i _
  norm_num

theorem sortDesc_scenarioD : sortDesc [(100:ℝ), 0, 50] = [100, 50, 0] := by
  have h0 : sortDesc [(100:ℝ), 0, 50] = insertDesc 100 (insertDesc 0 (insertDesc 50 [])) := rfl
  have h1 : insertDesc (50:ℝ) [] = [50] := rfl
  have h2 : insertDesc (0:ℝ) [50] = [50, 0] := by
    simp only [insertDesc]
    rw [if_neg (by norm_num : ¬((50:ℝ) ≤ 0))]
  have h3 : insertDesc (100:ℝ) [50, 0] = [100, 50, 0] := by
    simp only [insertDesc]
    rw [if_pos (by norm_num : (50:ℝ) ≤ 100)]
  rw [h0, h1, h2, h3]

theorem dcg_scenarioD : dcgFrom 0 [(100:ℝ), 0, 50] = 5/4 := by
  norm_num [dcgFrom, log2r_two, log2r_four]

theorem idcg_scenarioD : dcgFrom 0 [(100:ℝ), 50, 0] = 1 + (1/2) / log2r 3 := by
  norm_num [dcgFrom, log2r_two]

theorem idcg_scenarioD_pos : 0 < dcgFrom 0 [(100:ℝ), 50, 0] := by
  rw [idcg_scenarioD]
  have hL : (1:ℝ) < log2r 3 := one_lt_log2r_three
  have : (0:ℝ) < (1/2) / log2r 3 := by positivity
  linarith

theorem inv_log2r_three_lb : (306:ℝ)/485 < 1 / log2r 3 := by
  have hLpos : (0:ℝ) < log2r 3 := log2r_three_pos
  have h := one_div_lt_one_div_of_lt hLpos log2r_three_ub
  have heq : (1:ℝ) / (485/306) = 306/485 := by norm_num
  linarith [h, heq.ge.trans_lt h]

theorem inv_log2r_three_ub : 1 / log2r 3 < (53:ℝ)/84 := by
  have h := one_div_lt_one_div_of_lt (show (0:ℝ) < 84/53 by norm_num) log2r_three_lb
  have heq : (1:ℝ) / (84/53) = 53/84 := by norm_num
  linarith [h]

theorem calculate_ndcg_scenarioD : calculate_ndcg [(100:ℝ), 0, 50] (some 3) = 9502/10000 := by
  rw [calculate_ndcg_some_eq _ (by simp) 3]
  have hlen : min 3 ([(100:ℝ), 0, 50]).length = 3 := by simp
  rw [hlen, sortDesc_scenarioD]
  have htake1 : ([(100:ℝ), 50, 0]).take 3 = [100, 50, 0] := by simp
  have htake2 : ([(100:ℝ), 0, 50]).take 3 = [100, 0, 50] := by simp
  rw [htake1, htake2, if_neg idcg_scenarioD_pos.ne', dcg_scenarioD, idcg_scenarioD]
  have hL1 : (1:ℝ) < log2r 3 := one_lt_log2r_three
  have hLpos : (0:ℝ) < log2r 3 := by linarith
  have hu_lb : (306:ℝ)/485 < 1 / log2r 3 := inv_log2r_three_lb
  have hu_ub : 1 / log2r 3 < (53:ℝ)/84 := inv_log2r_three_ub
  have hB : (0:ℝ) < 1 + (1/2) / log2r 3 := by positivity
  have hhalf : (1:ℝ)/2 / log2r 3 = (1/2) * (1 / log2r 3) := by ring
  have hratio_lb : (9502:ℝ)/10000 ≤ (5/4) / (1 + (1/2) / log2r 3) := by
    rw [le_div_iff₀ hB, hhalf]
    nlinarith [hu_ub]
  have hratio_ub : (5/4) / (1 + (1/2) / log2r 3) < (95025:ℝ)/100000 := by
    rw [div_lt_iff₀ hB, hhalf]
    nlinarith [hu_lb]
  unfold pyRound
  have hr : roundHE ((5/4) / (1 + (1/2) / log2r 3) * 10 ^ (4:ℕ)) = 9502 := by
    apply roundHE_eq_of_lt_half
    · push_cast
      nlinarith [hratio_lb]
    · push_cast
      nlinarith [hratio_ub]
  rw [hr]
  norm_num

end FuzzyQueryEval

/-- C2 counterexample: calculate_ndcg_at_5 on the single-element list 5 returns
0.5, while the claimed sorted-descending IDCG formula would give exactly 1 (its
ideal DCG divides the same scores sorted, so a one-element list always scores
1); and calculate_ndcg on 99.99, 100 returns a value different from the exact
quotient dcg/idcg, because the code rounds it to 4 decimal places. -/
theorem rank_aggregator_formula_counterexample :
    EvalCsvV2.calculate_ndcg_at_5 [(5:ℝ)] = 1/2 ∧
    FuzzyQueryEval.dcgFrom 0 [(5:ℝ)] /
      FuzzyQueryEval.dcgFrom 0 (FuzzyQueryEval.sortDesc [(5:ℝ)]) = 1 ∧
    (1:ℝ)/2 ≠ 1 ∧
    FuzzyQueryEval.calculate_ndcg [(99.99:ℝ), 100] none = 1 ∧
    FuzzyQueryEval.dcgFrom 0 [(99.99:ℝ), 100] /
      FuzzyQueryEval.dcgFrom 0 (FuzzyQueryEval.sortDesc [(99.99:ℝ), 100]) < 1 := by
  refine ⟨?_, ?_, by norm_num, FuzzyQueryEval.calculate_ndcg_rounds_to_one, ?_⟩
  · norm_num [EvalCsvV2.calculate_ndcg_at_5, EvalCsvV2.dcgRaw, FuzzyQueryEval.log2r_two,
      List.replicate]
  · have hs : FuzzyQueryEval.sortDesc [(5:ℝ)] = [5] := rfl
    rw [hs]
    have hd : FuzzyQueryEval.dcgFrom 0 [(5:ℝ)] = 1/20 := by
      norm_num [FuzzyQueryEval.dcgFrom, FuzzyQueryEval.log2r_two]
    rw [hd]
    norm_num
  · rw [FuzzyQueryEval.sortDesc_pair_eval, FuzzyQueryEval.dcg_pair_eval,
      FuzzyQueryEval.idcg_pair_eval]
    have hL1 : (1:ℝ) < FuzzyQueryEval.log2r 3 := FuzzyQueryEval.one_lt_log2r_three
    have hLpos : (0:ℝ) < FuzzyQueryEval.log2r 3 := by linarith
    have hu1 : 1 / FuzzyQueryEval.log2r 3 < 1 := by
      rw [div_lt_one hLpos]
      exact hL1
    have hB : (0:ℝ) < 1 + (99.99/100) / FuzzyQueryEval.log2r 3 := by positivity
    rw [div_lt_one hB]
    have hdq : (99.99:ℝ)/100 / FuzzyQueryEval.log2r 3
        = (99.99/100) * (1 / FuzzyQueryEval.log2r 3) := by ring
    nlinarith [hu1]

/-- C2 (amended): for every non-empty list of score_pct values and every k,
calculate_ndcg returns dcg/idcg ROUNDED TO 4 DECIMAL PLACES, where dcg sums
(score_pct/100)/log2(i+2) over the first k positions of the presented order and
idcg applies the identical discounting to the same scores sorted descending
truncated to k (stated for nonzero idcg; a zero idcg returns 0).  On the list
100, 0, 50 with k = 3 this gives dcg = 1.25, idcg within 0.001 of 1.3155, and a
returned ndcg of exactly 0.9502 (matching the claimed 0.950 to 3 decimals).
The second implementation, calculate_ndcg_at_5 of evaluate_from_csv_v2, does
NOT use the sorted scores: it divides the raw-score DCG by the DCG of a
constant perfect score of 10 at every position. -/
theorem rank_aggregator_ndcg_formula (l : List ℝ) (k0 : ℕ) (hne : l ≠ [])
    (hidcg : FuzzyQueryEval.dcgFrom 0
      ((FuzzyQueryEval.sortDesc l).take (min k0 l.length)) ≠ 0) :
    FuzzyQueryEval.calculate_ndcg l (some k0) =
      pyRound 4
        ((∑ i ∈ Finset.range (min k0 l.length),
            (l.take (min k0 l.length)).getD i 0 / 100 / FuzzyQueryEval.log2r ((i:ℝ) + 2)) /
          (∑ i ∈ Finset.range (min k0 l.length),
            ((FuzzyQueryEval.sortDesc l).take (min k0 l.length)).getD i 0 / 100 /
              FuzzyQueryEval.log2r ((i:ℝ) + 2))) ∧
    FuzzyQueryEval.dcgFrom 0 [(100:ℝ), 0, 50] = 5/4 ∧
    |FuzzyQueryEval.dcgFrom 0 (FuzzyQueryEval.sortDesc [(100:ℝ), 0, 50]) - 1.3155| < 1/1000 ∧
    FuzzyQueryEval.calculate_ndcg [(100:ℝ), 0, 50] (some 3) = 9502/10000 ∧
    (∀ w : List ℝ, w ≠ [] →
      0 < EvalCsvV2.dcgRaw 0 (List.replicate w.length 10) →
      EvalCsvV2.calculate_ndcg_at_5 w =
        EvalCsvV2.dcgRaw 0 w / EvalCsvV2.dcgRaw 0 (List.replicate w.length 10)) := by
  refine ⟨?_, FuzzyQueryEval.dcg_scenarioD, ?_, FuzzyQueryEval.calculate_ndcg_scenarioD, ?_⟩
  · rw [FuzzyQueryEval.calculate_ndcg_some_eq l hne k0, if_neg hidcg,
      FuzzyQueryEval.dcgFrom_zero_eq_sum, FuzzyQueryEval.dcgFrom_zero_eq_sum,
      List.length_take, List.length_take, FuzzyQueryEval.sortDesc_length,
      Nat.min_eq_left (min_le_right k0 l.length)]
  · rw [FuzzyQueryEval.sortDesc_scenarioD, FuzzyQueryEval.idcg_scenarioD]
    have hu_lb := FuzzyQueryEval.inv_log2r_three_lb
    have hu_ub := FuzzyQueryEval.inv_log2r_three_ub
    have hhalf : (1:ℝ)/2 / FuzzyQueryEval.log2r 3
        = (1/2) * (1 / FuzzyQueryEval.log2r 3) := by ring
    rw [abs_lt]
    constructor
    · rw [hhalf]; nlinarith [hu_lb]
    · rw [hhalf]; nlinarith [hu_ub]
  · intro w hw hpos
    have hempty : w.isEmpty = false := by
      cases w with
      | nil => exact absurd rfl hw
      | cons a t => rfl
    simp only [EvalCsvV2.calculate_ndcg_at_5, hempty, Bool.false_eq_true, if_false]
    rw [if_pos hpos]

/-- Witness for C2 at Scenario D: the list 100, 0, 50 with k = 3. -/
theorem rank_aggregator_ndcg_formula_witness :
    FuzzyQueryEval.calculate_ndcg [(100:ℝ), 0, 50] (some 3) = 9502/10000 ∧
    FuzzyQueryEval.dcgFrom 0 [(100:ℝ), 0, 50] = 5/4 := by
  have h := rank_aggregator_ndcg_formula [(100:ℝ), 0, 50] 3 (by simp)
    (by
      rw [show min 3 ([(100:ℝ), 0, 50]).length = 3 by simp,
        FuzzyQueryEval.sortDesc_scenarioD,
        show ([(100:ℝ), 50, 0]).take 3 = [100, 50, 0] by simp]
      exact FuzzyQueryEval.idcg_scenarioD_pos.ne')
  exact ⟨h.2.2.2.1, h.2.1⟩

/-! ## Claim C7 -/

namespace FuzzyQueryEval

/-- The trace-level NDCG input of fuzzy_query_eval.py lines 443-448 composed
with calculate_store_score: the per-item relevance consumed by the DCG loop is
the score_pct field of each store record, i.e. the 2-decimal-rounded
percentage stored at line 244. -/
noncomputable def traceDcg (evals : List EvalResult) (q8_weight : ℚ) : ℝ :=
  dcgFrom 0 (evals.map (fun e => ((calculate_store_score e q8_weight).score_pct : ℝ)))

end FuzzyQueryEval

/-- C7 counterexample: a store whose answers earn 5 of 15 applicable points has
the exact percentage 100/3, but calculate_store_score stores 33.33 in
score_pct, and the trace-level DCG consumes that rounded value: the DCG of the
one-store trace differs from the DCG computed on the unrounded percentage.  So
rounding happens before the NDCG aggregation stage, not only at the reporting
boundary. -/
theorem ndcg_consumes_rounded_counterexample :
    (FuzzyQueryEval.calculate_store_score
      ⟨"YES", "YES", "NO", "NO", "NO", "NO", "NO", "NO", "NO"⟩ 2).score_pct = 3333/100 ∧
    FuzzyQueryEval.rawScorePct
      ⟨"YES", "YES", "NO", "NO", "NO", "NO", "NO", "NO", "NO"⟩ 2 = 100/3 ∧
    ((3333:ℚ)/100) ≠ 100/3 ∧
    FuzzyQueryEval.traceDcg
      [⟨"YES", "YES", "NO", "NO", "NO", "NO", "NO", "NO", "NO"⟩] 2 ≠
      FuzzyQueryEval.dcgFrom 0 [((100:ℝ)/3)] := by
  have hraw : FuzzyQueryEval.rawScorePct
      ⟨"YES", "YES", "NO", "NO", "NO", "NO", "NO", "NO", "NO"⟩ 2 = 100/3 := by
    simp [FuzzyQueryEval.rawScorePct, FuzzyQueryEval.weightLoop,
      FuzzyQueryEval.answersList, pyUpper_YES, pyUpper_NO]
    norm_num
  have hround : pyRound 2 ((100:ℚ)/3) = 3333/100 := by
    unfold pyRound
    have hr : roundHE ((100:ℚ)/3 * 10 ^ (2:ℕ)) = 3333 := by
      apply roundHE_eq_of_lt_half
      · push_cast
        norm_num
      · push_cast
        norm_num
    rw [hr]
    norm_num
  have hsp : (FuzzyQueryEval.calculate_store_score
      ⟨"YES", "YES", "NO", "NO", "NO", "NO", "NO", "NO", "NO"⟩ 2).score_pct = 3333/100 := by
    show pyRound 2 (FuzzyQueryEval.rawScorePct
      ⟨"YES", "YES", "NO", "NO", "NO", "NO", "NO", "NO", "NO"⟩ 2) = 3333/100
    rw [hraw, hround]
  refine ⟨hsp, hraw, by norm_num, ?_⟩
  have hlhs : FuzzyQueryEval.traceDcg
      [⟨"YES", "YES", "NO", "NO", "NO", "NO", "NO", "NO", "NO"⟩] 2
      = ((3333:ℝ)/100) / 100 / FuzzyQueryEval.log2r 2 := by
    unfold FuzzyQueryEval.traceDcg
    rw [List.map_cons, List.map_nil, hsp]
    simp [FuzzyQueryEval.dcgFrom]
  have hrhs : FuzzyQueryEval.dcgFrom 0 [((100:ℝ)/3)]
      = ((100:ℝ)/3) / 100 / FuzzyQueryEval.log2r 2 := by
    simp [FuzzyQueryEval.dcgFrom]
  rw [hlhs, hrhs, FuzzyQueryEval.log2r_two]
  intro h
  norm_num at h

/-- C7 (amended): per-item score_pct is rounded to 2 decimal places when the
store record is constructed, and the trace-level NDCG stage consumes exactly
these already-rounded score_pct values rather than the unrounded percentages
(the ndcg quotient is additionally rounded to 4 decimal places at return, per
the calculate_ndcg definition).  Rounding is therefore applied between
aggregation stages, not only at the reporting boundary. -/
theorem score_rounding_before_ndcg (evals : List FuzzyQueryEval.EvalResult) (q8w : ℚ) :
    (∀ e : FuzzyQueryEval.EvalResult,
      (FuzzyQueryEval.calculate_store_score e q8w).score_pct
        = pyRound 2 (FuzzyQueryEval.rawScorePct e q8w)) ∧
    FuzzyQueryEval.traceDcg evals q8w =
      FuzzyQueryEval.dcgFrom 0
        (evals.map (fun e => ((pyRound 2 (FuzzyQueryEval.rawScorePct e q8w) : ℚ) : ℝ))) := by
  constructor
  · intro e
    rfl
  · rfl

/-! ## Claim C5 -/

namespace FuzzyQueryEval

theorem weightLoop_characterization (l : List (ℚ × String)) :
    (weightLoop l).1 = ((l.filter (fun p => !(pyUpper p.2 == "NA"))).map Prod.fst).sum ∧
    (weightLoop l).2 = ((l.filter (fun p => pyUpper p.2 == "YES")).map Prod.fst).sum := by
  induction l with
  | nil => simp [weightLoop]
  | cons hd tl ih =>
    obtain ⟨ih1, ih2⟩ := ih
    obtain ⟨w, ans⟩ := hd
    by_cases hna : pyUpper ans = "NA"
    · have hyes : ¬(pyUpper ans = "YES") := by rw [hna]; decide
      simp [weightLoop, List.filter_cons, hna, hyes, ih1, ih2]
    · by_cases hyes : pyUpper ans = "YES"
      · simp [weightLoop, List.filter_cons, hna, hyes, ih1, ih2]
        constructor <;> first | trivial | ring
      · simp [weightLoop, List.filter_cons, hna, hyes, ih1, ih2]
        ring

end FuzzyQueryEval

namespace GradeTraces

theorem scoreLoop_general (table : List (String × ℚ)) (scores : List (String × String)) :
    (scoreLoop table scores).1 =
      ((scores.filter (fun p => p.2 == "Yes")).map (fun p => weightOf table p.1)).sum ∧
    (scoreLoop table scores).2 =
      ((scores.filter (fun p => p.2 == "Yes" || p.2 == "No")).map
        (fun p => weightOf table p.1)).sum := by
  induction scores with
  | nil => simp [scoreLoop]
  | cons hd tl ih =>
    obtain ⟨ih1, ih2⟩ := ih
    obtain ⟨c, a⟩ := hd
    by_cases hy : a = "Yes"
    · subst hy
      simp [scoreLoop, List.filter_cons, ih1, ih2]
      constructor <;> ring
    · by_cases hn : a = "No"
      · subst hn
        simp [scoreLoop, List.filter_cons, ih1, ih2]
        ring
      · simp [scoreLoop, List.filter_cons, hy, hn, ih1, ih2]

end GradeTraces

/-- C5 counterexample: no InvalidAnswerError exists anywhere in the code.  The
fuzzy-query scorer silently treats the unrecognized answer Maybe exactly like a
Fail (its weight enters the applicable total, earning nothing): the store
record for answers with q3 = Maybe equals the record for q3 = NO.  The
grade_traces scorer silently treats Maybe exactly like NotApplicable: the
criterion contributes to neither earned nor applicable points. -/
theorem invalid_answer_counterexample :
    FuzzyQueryEval.calculate_store_score
      ⟨"YES", "YES", "Maybe", "YES", "YES", "YES", "YES", "YES", "YES"⟩ 2 =
    FuzzyQueryEval.calculate_store_score
      ⟨"YES", "YES", "NO", "YES", "YES", "YES", "YES", "YES", "YES"⟩ 2 ∧
    (FuzzyQueryEval.calculate_store_score
      ⟨"YES", "YES", "Maybe", "YES", "YES", "YES", "YES", "YES", "YES"⟩ 2).total_weight = 15 ∧
    (FuzzyQueryEval.calculate_store_score
      ⟨"YES", "YES", "Maybe", "YES", "YES", "YES", "YES", "YES", "YES"⟩ 2).earned_weight = 14 ∧
    GradeTraces.calculate_weighted_score GradeTraces.DEFAULT_SCORE_MAPPING_DICT
      [("is_nearby", "Maybe")] =
      GradeTraces.calculate_weighted_score GradeTraces.DEFAULT_SCORE_MAPPING_DICT
        [("is_nearby", "NA to Query")] ∧
    GradeTraces.calculate_weighted_score GradeTraces.DEFAULT_SCORE_MAPPING_DICT
      [("is_nearby", "Maybe")] = (0, 0, 0) := by
  have hwA : FuzzyQueryEval.weightLoop (FuzzyQueryEval.answersList
      ⟨"YES", "YES", "Maybe", "YES", "YES", "YES", "YES", "YES", "YES"⟩ 2) = (15, 14) := by
    simp [FuzzyQueryEval.weightLoop, FuzzyQueryEval.answersList, pyUpper_YES, pyUpper_Maybe]
    norm_num
  have hwB : FuzzyQueryEval.weightLoop (FuzzyQueryEval.answersList
      ⟨"YES", "YES", "NO", "YES", "YES", "YES", "YES", "YES", "YES"⟩ 2) = (15, 14) := by
    simp [FuzzyQueryEval.weightLoop, FuzzyQueryEval.answersList, pyUpper_YES, pyUpper_NO]
    norm_num
  have hrawA : FuzzyQueryEval.rawScorePct
      ⟨"YES", "YES", "Maybe", "YES", "YES", "YES", "YES", "YES", "YES"⟩ 2 = 280/3 := by
    unfold FuzzyQueryEval.rawScorePct
    rw [hwA]
    norm_num
  have hrawB : FuzzyQueryEval.rawScorePct
      ⟨"YES", "YES", "NO", "YES", "YES", "YES", "YES", "YES", "YES"⟩ 2 = 280/3 := by
    unfold FuzzyQueryEval.rawScorePct
    rw [hwB]
    norm_num
  refine ⟨?_, ?_, ?_, ?_, ?_⟩
  · simp only [FuzzyQueryEval.calculate_store_score, FuzzyQueryEval.StoreScore.mk.injEq]
    refine ⟨by rw [hrawA, hrawB], by rw [hwA, hwB], by rw [hwA, hwB], rfl, rfl⟩
  · show (FuzzyQueryEval.weightLoop (FuzzyQueryEval.answersList _ 2)).1 = 15
    rw [hwA]
  · show (FuzzyQueryEval.weightLoop (FuzzyQueryEval.answersList _ 2)).2 = 14
    rw [hwA]
  · simp [GradeTraces.calculate_weighted_score, GradeTraces.scoreLoop]
  · simp [GradeTraces.calculate_weighted_score, GradeTraces.scoreLoop]

/-- C5 (amended): unrecognized raw answers never raise (there is no
InvalidAnswerError in the code); they are silently coerced.  In
calculate_store_score every answer whose uppercase form is not NA counts its
weight into total_weight and earns only when the uppercase form is YES, so an
unrecognized value is treated as a Fail; in calculate_weighted_score only the
exact strings Yes and No contribute, so an unrecognized value is treated as
NotApplicable. -/
theorem unrecognized_answers_coerced (e : FuzzyQueryEval.EvalResult) (q8w : ℚ)
    (table : List (String × ℚ)) (scores : List (String × String)) :
    (FuzzyQueryEval.calculate_store_score e q8w).total_weight =
      (((FuzzyQueryEval.answersList e q8w).filter
        (fun p => !(pyUpper p.2 == "NA"))).map Prod.fst).sum ∧
    (FuzzyQueryEval.calculate_store_score e q8w).earned_weight =
      (((FuzzyQueryEval.answersList e q8w).filter
        (fun p => pyUpper p.2 == "YES")).map Prod.fst).sum ∧
    (GradeTraces.calculate_weighted_score table scores).2.1 =
      ((scores.filter (fun p => p.2 == "Yes")).map
        (fun p => GradeTraces.weightOf table p.1)).sum ∧
    (GradeTraces.calculate_weighted_score table scores).2.2 =
      ((scores.filter (fun p => p.2 == "Yes" || p.2 == "No")).map
        (fun p => GradeTraces.weightOf table p.1)).sum := by
  obtain ⟨h1, h2⟩ := FuzzyQueryEval.weightLoop_characterization
    (FuzzyQueryEval.answersList e q8w)
  obtain ⟨h3, h4⟩ := GradeTraces.scoreLoop_general table scores
  exact ⟨h1, h2, h3, h4⟩

/-! ## Claim C8 -/

namespace FuzzyQueryEval

/-- The truncation bound used by calculate_ndcg (fuzzy_query_eval.py lines
260-263): the full length when k is None, else min k len. -/
def kkOf (l : List ℝ) (k : Option ℕ) : ℕ :=
  match k with
  | none => l.length
  | some k0 => min k0 l.length

/-- The ideal-DCG subterm of calculate_ndcg (fuzzy_query_eval.py lines
271-276): discounted sum over the sorted-descending scores truncated to k. -/
noncomputable def idcgOf (l : List ℝ) (k : Option ℕ) : ℝ :=
  dcgFrom 0 ((sortDesc l).take (kkOf l k))

theorem calculate_ndcg_eq_general (l : List ℝ) (hne : l ≠ []) (k : Option ℕ) :
    calculate_ndcg l k =
      if idcgOf l k = 0 then 0
      else pyRound 4 (dcgFrom 0 (l.take (kkOf l k)) / idcgOf l k) := by
  have hempty : l.isEmpty = false := by
    cases l with
    | nil => exact absurd rfl hne
    | cons a t => rfl
  cases k <;>
    simp only [calculate_ndcg, idcgOf, kkOf, hempty, Bool.false_eq_true, if_false]

end FuzzyQueryEval

namespace GradeTraces

theorem scoreLoop_all_na (table : List (String × ℚ)) (scores : List (String × String))
    (hna : ∀ p ∈ scores, p.2 = "NA to Query") :
    scoreLoop table scores = (0, 0) := by
  induction scores with
  | nil => rfl
  | cons hd tl ih =>
    obtain ⟨c, a⟩ := hd
    have ha : a = "NA to Query" := hna (c, a) (List.mem_cons_self _ _)
    subst ha
    have ihr := ih (fun p hp => hna p (List.mem_cons_of_mem _ hp))
    simp [scoreLoop, ihr]

end GradeTraces

/-- C8: an item all of whose checks are NotApplicable has zero applicable
points and scores exactly 0; the empty ranked list and any non-empty list
whose ideal DCG is 0 yield ndcg 0.  All three are total computations: no
exception path exists in the embedding. -/
theorem zero_signal_cases_defined (table : List (String × ℚ))
    (scores : List (String × String)) (l : List ℝ) (k k2 : Option ℕ)
    (hna : ∀ p ∈ scores, p.2 = "NA to Query")
    (hne : l ≠ []) (hidcg : FuzzyQueryEval.idcgOf l k = 0) :
    GradeTraces.calculate_weighted_score table scores = (0, 0, 0) ∧
    FuzzyQueryEval.calculate_ndcg [] k2 = 0 ∧
    FuzzyQueryEval.calculate_ndcg l k = 0 := by
  refine ⟨?_, rfl, ?_⟩
  · have h0 := GradeTraces.scoreLoop_all_na table scores hna
    simp [GradeTraces.calculate_weighted_score, h0]
  · rw [FuzzyQueryEval.calculate_ndcg_eq_general l hne k, if_pos hidcg]

/-- Witness for C8: one all-NA check, the empty list, and the all-zero list. -/
theorem zero_signal_cases_defined_witness :
    GradeTraces.calculate_weighted_score [("a", 3)] [("a", "NA to Query")] = (0, 0, 0) ∧
    FuzzyQueryEval.calculate_ndcg [] none = 0 ∧
    FuzzyQueryEval.calculate_ndcg [(0:ℝ), 0] none = 0 := by
  exact zero_signal_cases_defined [("a", 3)] [("a", "NA to Query")] [(0:ℝ), 0] none none
    (by
      intro p hp
      simp only [List.mem_singleton] at hp
      subst hp
      rfl)
    (by simp)
    (by
      have hs : FuzzyQueryEval.sortDesc [(0:ℝ), 0] = [0, 0] := by
        simp [FuzzyQueryEval.sortDesc, FuzzyQueryEval.insertDesc]
      simp [FuzzyQueryEval.idcgOf, FuzzyQueryEval.kkOf, hs, FuzzyQueryEval.dcgFrom])

/-! ## verify_and_recalculate_scores (grade_fuzzy_queries.py and
evaluate_from_csv_v2.py) -/

namespace VerifyScores

/-- One value of the relevance_format_checks / serendipity_checks dicts:
either a JSON object, of which the code reads the keys points and
is_gate_violation (an absent key surfaces as none, matching the .get
defaults), or any non-dict JSON value. -/
inductive CheckVal where
  | isDict (points : Option ℚ) (is_gate_violation : Option Bool)
  | notDict
  deriving DecidableEq

/-- The judgment record handled by verify_and_recalculate_scores: the two
check dicts plus the three self-reported scores (none models an absent key,
read back by the code with .get default 0). -/
structure JudgeResult where
  relevance_format_checks : List (String × CheckVal)
  serendipity_checks : List (String × CheckVal)
  relevance_format_score : Option ℚ
  serendipity_score : Option ℚ
  weighted_score : Option ℚ
  deriving DecidableEq

/-- Whether each of the three mismatch warnings was logged (the code only
prints them; they are surfaced here as data). -/
structure MismatchFlags where
  rel : Bool
  ser : Bool
  weighted : Bool
  deriving DecidableEq

/-- rel_checks.get("check_6_profile_dietary_gate", {}): the bound value when
the key is present, else an empty dict. -/
def getGateCheck (cs : List (String × CheckVal)) : CheckVal :=
  (cs.lookup "check_6_profile_dietary_gate").getD (CheckVal.isDict none none)

/-- check.get("points", 0) summed over the dict values, skipping non-dict
values, as in grade_fuzzy_queries.py lines 724-728 and 733-737. -/
def sumPoints : List (String × CheckVal) → ℚ
  | [] => 0
  | (_, CheckVal.isDict pts _) :: rest => pts.getD 0 + sumPoints rest
  | (_, CheckVal.notDict) :: rest => sumPoints rest

/-- The three recomputed scores of grade_fuzzy_queries.py lines 723-741 (and
identically evaluate_from_csv_v2.py lines 562-572): relevance points are
scaled from the 20-point check total to a 0-10 score, serendipity points pass
through, and the weighted score is 0.7 relevance + 0.3 serendipity. -/
def calculated_rel_score (r : JudgeResult) : ℚ :=
  sumPoints r.relevance_format_checks / 20 * 10

def calculated_ser_score (r : JudgeResult) : ℚ :=
  sumPoints r.serendipity_checks

def calculated_weighted (r : JudgeResult) : ℚ :=
  calculated_rel_score r * (7/10) + calculated_ser_score r * (3/10)

/-- sum(check.get("points", 0) for check in checks.values()) as in
evaluate_from_csv_v2.py lines 563 and 568: the first non-dict value raises
AttributeError. -/
def sumPointsStrict : List (String × CheckVal) → Except String ℚ
  | [] => Except.ok 0
  | (_, CheckVal.isDict pts _) :: rest =>
    (sumPointsStrict rest).map (fun s => pts.getD 0 + s)
  | (_, CheckVal.notDict) :: _ => Except.error "AttributeError: points lookup on a non-dict"

end VerifyScores

namespace GradeFuzzy

open VerifyScores

/-- grade_fuzzy_queries.py lines 694-775, verify_and_recalculate_scores.  The
returned pair is the mutated result dict plus the mismatch-warning flags.  The
error case models the AttributeError Python raises at line 713 when the gate
entry is present but bound to a non-dict value (.get on it fails); all other
malformed check values are skipped by the isinstance guards. -/
def verify_and_recalculate_scores (result : JudgeResult) :
    Except String (JudgeResult × MismatchFlags) :=
  match getGateCheck result.relevance_format_checks with
  | CheckVal.notDict =>
    Except.error "AttributeError: is_gate_violation lookup on a non-dict"
  | CheckVal.isDict _ gv =>
    if gv.getD false then
      Except.ok ({ result with
                   relevance_format_score := some 0
                   serendipity_score := some 0
                   weighted_score := some 0 },
                 ⟨false, false, false⟩)
    else
      let llm_rel := result.relevance_format_score.getD 0
      let llm_ser := result.serendipity_score.getD 0
      let llm_weighted := result.weighted_score.getD 0
      let relMismatch : Bool := decide ((3:ℚ)/20 < |calculated_rel_score result - llm_rel|)
      let serMismatch : Bool := decide ((3:ℚ)/20 < |calculated_ser_score result - llm_ser|)
      let wMismatch : Bool := decide ((3:ℚ)/20 < |calculated_weighted result - llm_weighted|)
      Except.ok ({ result with
          relevance_format_score :=
            if relMismatch then some (calculated_rel_score result)
            else result.relevance_format_score,
          serendipity_score :=
            if serMismatch then some (calculated_ser_score result)
            else result.serendipity_score,
          weighted_score :=
            if wMismatch then some (calculated_weighted result)
            else result.weighted_score },
        ⟨relMismatch, serMismatch, wMismatch⟩)

end GradeFuzzy

namespace EvalCsvV2

open VerifyScores

/-- evaluate_from_csv_v2.py lines 536-606, verify_and_recalculate_scores: as
the grade_fuzzy_queries copy, but the point sums have no isinstance guard, so
ANY non-dict check value raises AttributeError. -/
def verify_and_recalculate_scores (result : JudgeResult) :
    Except String (JudgeResult × MismatchFlags) :=
  match getGateCheck result.relevance_format_checks with
  | CheckVal.notDict =>
    Except.error "AttributeError: is_gate_violation lookup on a non-dict"
  | CheckVal.isDict _ gv =>
    if gv.getD false then
      Except.ok ({ result with
                   relevance_format_score := some 0
                   serendipity_score := some 0
                   weighted_score := some 0 },
                 ⟨false, false, false⟩)
    else
      match sumPointsStrict result.relevance_format_checks with
      | Except.error e => Except.error e
      | Except.ok rel_points =>
        match sumPointsStrict result.serendipity_checks with
        | Except.error e => Except.error e
        | Except.ok ser_points =>
          let calc_rel := rel_points / 20 * 10
          let calc_ser := ser_points
          let calc_weighted := calc_rel * (7/10) + calc_ser * (3/10)
          let llm_rel := result.relevance_format_score.getD 0
          let llm_ser := result.serendipity_score.getD 0
          let llm_weighted := result.weighted_score.getD 0
          let relMismatch : Bool := decide ((3:ℚ)/20 < |calc_rel - llm_rel|)
          let serMismatch : Bool := decide ((3:ℚ)/20 < |calc_ser - llm_ser|)
          let wMismatch : Bool := decide ((3:ℚ)/20 < |calc_weighted - llm_weighted|)
          Except.ok ({ result with
              relevance_format_score :=
                if relMismatch then some calc_rel
                else result.relevance_format_score,
              serendipity_score :=
                if serMismatch then some calc_ser
                else result.serendipity_score,
              weighted_score :=
                if wMismatch then some calc_weighted
                else result.weighted_score },
            ⟨relMismatch, serMismatch, wMismatch⟩)

end EvalCsvV2

/-! ## judge_key_metrics_v2.py : critical-failure override -/

namespace JudgeKeyMetrics

/-- The fields of the record built at judge_key_metrics_v2.py lines 429-445
that the critical-failure policy concerns. -/
structure KeyMetricsResult where
  overall_score : ℚ
  shopping_score : ℚ
  personalization_score : ℚ
  conversational_score : ℚ
  critical_failure : Bool

/-- passed / total * 100 over one category of boolean checks, 0 when the
category is empty (judge_key_metrics_v2.py lines 397-410). -/
def categoryScore (checks : List Bool) : ℚ :=
  if 0 < checks.length then ((checks.countP id : ℚ) / (checks.length : ℚ)) * 100 else 0

/-- judge_key_metrics_v2.py lines 389-434: the critical_failure flag is the
disjunction of the three per-section flags; a critical failure overrides the
overall score to 0 while the per-category scores are reported unchanged
(rounded to 1 decimal place, as in the returned dict). -/
def evaluate_overall (shopping_critical conversational_critical safety_critical : Bool)
    (shopping personalization conversational : List Bool) : KeyMetricsResult :=
  let critical_failure := shopping_critical || conversational_critical || safety_critical
  let shopping_score := categoryScore shopping
  let personalization_score := categoryScore personalization
  let conversational_score := categoryScore conversational
  let overall_score :=
    if critical_failure then 0
    else shopping_score * (1/2) + personalization_score * (3/10)
      + conversational_score * (1/5)
  { overall_score := pyRound 1 overall_score
    shopping_score := pyRound 1 shopping_score
    personalization_score := pyRound 1 personalization_score
    conversational_score := pyRound 1 conversational_score
    critical_failure := critical_failure }

end JudgeKeyMetrics

theorem pyRound_zero {α : Type} [LinearOrderedField α] [FloorRing α] (n : ℕ) :
    pyRound n (0 : α) = 0 := by
  unfold pyRound
  rw [zero_mul, show ((0:α)) = (((0:ℤ)) : α) by norm_num, roundHE_intCast]
  norm_num

/-! ## Claim C3 -/

/-- C3: when the gate check carries is_gate_violation = true, both copies of
verify_and_recalculate_scores force all three reported scores to 0 regardless
of every other check value and every self-reported score, while the raw
per-check data (from which the would-be score is computed) passes through
un-overridden; and in judge_key_metrics_v2, any critical-failure flag forces
the overall score to 0 while the per-category scores are reported
un-overridden, so a caller can still see what the item would have scored. -/
theorem gate_and_critical_override (r : VerifyScores.JudgeResult)
    (pts : Option ℚ) (gv : Option Bool)
    (sc cc sfc : Bool) (s p c : List Bool)
    (hgate : VerifyScores.getGateCheck r.relevance_format_checks =
      VerifyScores.CheckVal.isDict pts gv)
    (hviol : gv.getD false = true)
    (hcrit : (sc || cc || sfc) = true) :
    GradeFuzzy.verify_and_recalculate_scores r =
      Except.ok ({ r with
        relevance_format_score := some 0
        serendipity_score := some 0
        weighted_score := some 0 }, ⟨false, false, false⟩) ∧
    EvalCsvV2.verify_and_recalculate_scores r =
      Except.ok ({ r with
        relevance_format_score := some 0
        serendipity_score := some 0
        weighted_score := some 0 }, ⟨false, false, false⟩) ∧
    (JudgeKeyMetrics.evaluate_overall sc cc sfc s p c).overall_score = 0 ∧
    (JudgeKeyMetrics.evaluate_overall sc cc sfc s p c).shopping_score
      = pyRound 1 (JudgeKeyMetrics.categoryScore s) ∧
    (JudgeKeyMetrics.evaluate_overall sc cc sfc s p c).personalization_score
      = pyRound 1 (JudgeKeyMetrics.categoryScore p) ∧
    (JudgeKeyMetrics.evaluate_overall sc cc sfc s p c).conversational_score
      = pyRound 1 (JudgeKeyMetrics.categoryScore c) := by
  refine ⟨?_, ?_, ?_, rfl, rfl, rfl⟩
  · simp only [GradeFuzzy.verify_and_recalculate_scores, hgate, hviol, if_true]
  · simp only [EvalCsvV2.verify_and_recalculate_scores, hgate, hviol, if_true]
  · simp only [JudgeKeyMetrics.evaluate_overall, hcrit, if_true]
    exact pyRound_zero 1

/-- Witness for C3: a gate-violated record with an otherwise perfect check and
a claimed score of 10, and a critical failure with all category checks
passing. -/
theorem gate_and_critical_override_witness :
    GradeFuzzy.verify_and_recalculate_scores
      ⟨[("check_6_profile_dietary_gate",
          VerifyScores.CheckVal.isDict (some 2) (some true)),
        ("check_1_primary_intent", VerifyScores.CheckVal.isDict (some 18) none)],
       [], some 10, some 10, some 10⟩ =
      Except.ok
        (⟨[("check_6_profile_dietary_gate",
            VerifyScores.CheckVal.isDict (some 2) (some true)),
           ("check_1_primary_intent", VerifyScores.CheckVal.isDict (some 18) none)],
          [], some 0, some 0, some 0⟩,
         ⟨false, false, false⟩) ∧
    (JudgeKeyMetrics.evaluate_overall true false false [true, true] [true] [true]).overall_score
      = 0 ∧
    (JudgeKeyMetrics.evaluate_overall true false false [true, true] [true] [true]).shopping_score
      = pyRound 1 (JudgeKeyMetrics.categoryScore [true, true]) := by
  have h := gate_and_critical_override
    ⟨[("check_6_profile_dietary_gate",
        VerifyScores.CheckVal.isDict (some 2) (some true)),
      ("check_1_primary_intent", VerifyScores.CheckVal.isDict (some 18) none)],
     [], some 10, some 10, some 10⟩
    (some 2) (some true) true false false [true, true] [true] [true]
    (by rfl) (by rfl) (by rfl)
  exact ⟨h.1, h.2.2.1, h.2.2.2.1⟩

namespace GradeFuzzy

open VerifyScores

theorem verify_no_gate_eval (r : JudgeResult) (pts : Option ℚ) (gv : Option Bool)
    (hgate : getGateCheck r.relevance_format_checks = CheckVal.isDict pts gv)
    (hnoviol : gv.getD false = false) :
    verify_and_recalculate_scores r = Except.ok ({ r with
        relevance_format_score :=
          if decide ((3:ℚ)/20 < |calculated_rel_score r - r.relevance_format_score.getD 0|)
          then some (calculated_rel_score r) else r.relevance_format_score
        serendipity_score :=
          if decide ((3:ℚ)/20 < |calculated_ser_score r - r.serendipity_score.getD 0|)
          then some (calculated_ser_score r) else r.serendipity_score
        weighted_score :=
          if decide ((3:ℚ)/20 < |calculated_weighted r - r.weighted_score.getD 0|)
          then some (calculated_weighted r) else r.weighted_score },
      ⟨decide ((3:ℚ)/20 < |calculated_rel_score r - r.relevance_format_score.getD 0|),
       decide ((3:ℚ)/20 < |calculated_ser_score r - r.serendipity_score.getD 0|),
       decide ((3:ℚ)/20 < |calculated_weighted r - r.weighted_score.getD 0|)⟩) := by
  simp only [verify_and_recalculate_scores, hgate, hnoviol, Bool.false_eq_true, if_false]

end GradeFuzzy

namespace VerifyScores

theorem sumPointsStrict_eq_ok (cs : List (String × CheckVal))
    (hdict : ∀ p ∈ cs, p.2 ≠ CheckVal.notDict) :
    sumPointsStrict cs = Except.ok (sumPoints cs) := by
  induction cs with
  | nil => rfl
  | cons hd tl ih =>
    obtain ⟨name, v⟩ := hd
    cases v with
    | isDict pts gv =>
      have ihr := ih (fun p hp => hdict p (List.mem_cons_of_mem _ hp))
      simp [sumPointsStrict, sumPoints, ihr, Except.map]
    | notDict =>
      exact absurd rfl (hdict (name, CheckVal.notDict) (List.mem_cons_self _ _))

end VerifyScores

theorem v2_eq_fuzzy_of_all_dict (r : VerifyScores.JudgeResult)
    (hd1 : ∀ p ∈ r.relevance_format_checks, p.2 ≠ VerifyScores.CheckVal.notDict)
    (hd2 : ∀ p ∈ r.serendipity_checks, p.2 ≠ VerifyScores.CheckVal.notDict) :
    EvalCsvV2.verify_and_recalculate_scores r =
      GradeFuzzy.verify_and_recalculate_scores r := by
  cases hg : VerifyScores.getGateCheck r.relevance_format_checks with
  | notDict =>
    simp [EvalCsvV2.verify_and_recalculate_scores,
      GradeFuzzy.verify_and_recalculate_scores, hg]
  | isDict pts gv =>
    by_cases hv : gv.getD false = true
    · simp [EvalCsvV2.verify_and_recalculate_scores,
        GradeFuzzy.verify_and_recalculate_scores, hg, hv]
    · have hv' : gv.getD false = false := by
        cases h : gv.getD false
        · rfl
        · exact absurd h hv
      simp only [EvalCsvV2.verify_and_recalculate_scores,
        GradeFuzzy.verify_and_recalculate_scores, hg, hv', Bool.false_eq_true,
        if_false, VerifyScores.sumPointsStrict_eq_ok _ hd1,
        VerifyScores.sumPointsStrict_eq_ok _ hd2]
      rfl

/-! ## Claim C6 -/

/-- C6 counterexample: for a record whose checks recompute to a weighted score
of 0 but whose self-reported weighted score is 0.1, the difference is within
the 0.15 tolerance, so verify_and_recalculate_scores keeps the self-reported
0.1 in the returned record: the recomputed value is NOT authoritative inside
the tolerance band. -/
theorem score_mismatch_authority_counterexample :
    GradeFuzzy.verify_and_recalculate_scores ⟨[], [], none, none, some (1/10)⟩ =
      Except.ok ((⟨[], [], none, none, some (1/10)⟩ : VerifyScores.JudgeResult),
        ⟨false, false, false⟩) ∧
    VerifyScores.calculated_weighted ⟨[], [], none, none, some (1/10)⟩ = 0 ∧
    some ((1:ℚ)/10) ≠ some (0:ℚ) := by
  have hcr : VerifyScores.calculated_rel_score ⟨[], [], none, none, some (1/10)⟩ = 0 := by
    simp [VerifyScores.calculated_rel_score, VerifyScores.sumPoints]
  have hcs : VerifyScores.calculated_ser_score ⟨[], [], none, none, some (1/10)⟩ = 0 := by
    simp [VerifyScores.calculated_ser_score, VerifyScores.sumPoints]
  have hcw : VerifyScores.calculated_weighted ⟨[], [], none, none, some (1/10)⟩ = 0 := by
    unfold VerifyScores.calculated_weighted
    rw [hcr, hcs]
    ring
  have habs : |(0:ℚ) - 1/10| = 1/10 := by
    rw [abs_of_nonpos (by norm_num)]
    norm_num
  have h1 : ¬((3:ℚ)/20 <
      |VerifyScores.calculated_rel_score ⟨[], [], none, none, some (1/10)⟩ -
        (⟨[], [], none, none, some (1/10)⟩ :
          VerifyScores.JudgeResult).relevance_format_score.getD 0|) := by
    have hd : (⟨[], [], none, none, some (1/10)⟩ :
        VerifyScores.JudgeResult).relevance_format_score.getD 0 = 0 := rfl
    rw [hcr, hd, sub_self, abs_zero]
    norm_num
  have h2 : ¬((3:ℚ)/20 <
      |VerifyScores.calculated_ser_score ⟨[], [], none, none, some (1/10)⟩ -
        (⟨[], [], none, none, some (1/10)⟩ :
          VerifyScores.JudgeResult).serendipity_score.getD 0|) := by
    have hd : (⟨[], [], none, none, some (1/10)⟩ :
        VerifyScores.JudgeResult).serendipity_score.getD 0 = 0 := rfl
    rw [hcs, hd, sub_self, abs_zero]
    norm_num
  have h3 : ¬((3:ℚ)/20 <
      |VerifyScores.calculated_weighted ⟨[], [], none, none, some (1/10)⟩ -
        (⟨[], [], none, none, some (1/10)⟩ :
          VerifyScores.JudgeResult).weighted_score.getD 0|) := by
    have hd : (⟨[], [], none, none, some (1/10)⟩ :
        VerifyScores.JudgeResult).weighted_score.getD 0 = 1/10 := rfl
    rw [hcw, hd, habs]
    norm_num
  refine ⟨?_, hcw, by simp⟩
  rw [GradeFuzzy.verify_no_gate_eval ⟨[], [], none, none, some (1/10)⟩ none none rfl rfl]
  simp only [decide_eq_true_eq]
  rw [if_neg h1, if_neg h2, if_neg h3, decide_eq_false h1, decide_eq_false h2,
    decide_eq_false h3]

/-- C6 (amended): with no gate violation, each of the three scores in the
returned record is the recomputed value exactly when the absolute difference
between the claimed and recomputed values exceeds the tolerance 0.15 (and the
discrepancy warning is recorded exactly then); within the tolerance the
SELF-REPORTED value is kept, so the recomputed value is authoritative only
outside the tolerance band.  Under well-formed (all-dict) checks the
evaluate_from_csv_v2 copy returns the identical result. -/
theorem score_mismatch_tolerance (r : VerifyScores.JudgeResult)
    (pts : Option ℚ) (gv : Option Bool)
    (out : VerifyScores.JudgeResult) (flags : VerifyScores.MismatchFlags)
    (hgate : VerifyScores.getGateCheck r.relevance_format_checks =
      VerifyScores.CheckVal.isDict pts gv)
    (hnoviol : gv.getD false = false)
    (hrun : GradeFuzzy.verify_and_recalculate_scores r = Except.ok (out, flags)) :
    ((3:ℚ)/20 < |VerifyScores.calculated_weighted r - r.weighted_score.getD 0| →
      out.weighted_score = some (VerifyScores.calculated_weighted r) ∧
      flags.weighted = true) ∧
    (¬((3:ℚ)/20 < |VerifyScores.calculated_weighted r - r.weighted_score.getD 0|) →
      out.weighted_score = r.weighted_score ∧ flags.weighted = false) ∧
    ((3:ℚ)/20 < |VerifyScores.calculated_rel_score r - r.relevance_format_score.getD 0| →
      out.relevance_format_score = some (VerifyScores.calculated_rel_score r) ∧
      flags.rel = true) ∧
    (¬((3:ℚ)/20 < |VerifyScores.calculated_rel_score r - r.relevance_format_score.getD 0|) →
      out.relevance_format_score = r.relevance_format_score ∧ flags.rel = false) ∧
    ((3:ℚ)/20 < |VerifyScores.calculated_ser_score r - r.serendipity_score.getD 0| →
      out.serendipity_score = some (VerifyScores.calculated_ser_score r) ∧
      flags.ser = true) ∧
    (¬((3:ℚ)/20 < |VerifyScores.calculated_ser_score r - r.serendipity_score.getD 0|) →
      out.serendipity_score = r.serendipity_score ∧ flags.ser = false) ∧
    ((∀ p ∈ r.relevance_format_checks, p.2 ≠ VerifyScores.CheckVal.notDict) →
      (∀ p ∈ r.serendipity_checks, p.2 ≠ VerifyScores.CheckVal.notDict) →
      EvalCsvV2.verify_and_recalculate_scores r = Except.ok (out, flags)) := by
  have heval := GradeFuzzy.verify_no_gate_eval r pts gv hgate hnoviol
  rw [hrun] at heval
  have hpair := Except.ok.inj heval
  have hout : out = _ := congrArg Prod.fst hpair
  have hflags : flags = _ := congrArg Prod.snd hpair
  refine ⟨fun hP => ?_, fun hP => ?_, fun hP => ?_, fun hP => ?_, fun hP => ?_,
    fun hP => ?_, fun hd1 hd2 => ?_⟩ <;>
    first
    | (rw [hout, hflags]; simp [hP])
    | rw [v2_eq_fuzzy_of_all_dict r hd1 hd2, hrun]

/-- Witness for C6: a record whose checks recompute to weighted 7 but whose
claimed weighted score is 0 gets overridden (note recorded), while its claimed
relevance score matches the recomputation and is kept. -/
theorem score_mismatch_tolerance_witness :
    GradeFuzzy.verify_and_recalculate_scores
      ⟨[("check_1_primary_intent", VerifyScores.CheckVal.isDict (some 20) none)],
        [], some 10, some 0, some 0⟩ =
      Except.ok
        ((⟨[("check_1_primary_intent", VerifyScores.CheckVal.isDict (some 20) none)],
          [], some 10, some 0, some 7⟩ : VerifyScores.JudgeResult),
         ⟨false, false, true⟩) ∧
    (⟨[("check_1_primary_intent", VerifyScores.CheckVal.isDict (some 20) none)],
      [], some 10, some 0, some 7⟩ : VerifyScores.JudgeResult).weighted_score =
      some (VerifyScores.calculated_weighted
        ⟨[("check_1_primary_intent", VerifyScores.CheckVal.isDict (some 20) none)],
          [], some 10, some 0, some 0⟩) ∧
    (⟨[("check_1_primary_intent", VerifyScores.CheckVal.isDict (some 20) none)],
      [], some 10, some 0, some 7⟩ : VerifyScores.JudgeResult).relevance_format_score =
      (⟨[("check_1_primary_intent", VerifyScores.CheckVal.isDict (some 20) none)],
        [], some 10, some 0, some 0⟩ : VerifyScores.JudgeResult).relevance_format_score := by
  have hcr : VerifyScores.calculated_rel_score
      ⟨[("check_1_primary_intent", VerifyScores.CheckVal.isDict (some 20) none)],
        [], some 10, some 0, some 0⟩ = 10 := by
    simp [VerifyScores.calculated_rel_score, VerifyScores.sumPoints]
  have hcs : VerifyScores.calculated_ser_score
      ⟨[("check_1_primary_intent", VerifyScores.CheckVal.isDict (some 20) none)],
        [], some 10, some 0, some 0⟩ = 0 := by
    simp [VerifyScores.calculated_ser_score, VerifyScores.sumPoints]
  have hcw : VerifyScores.calculated_weighted
      ⟨[("check_1_primary_intent", VerifyScores.CheckVal.isDict (some 20) none)],
        [], some 10, some 0, some 0⟩ = 7 := by
    unfold VerifyScores.calculated_weighted
    rw [hcr, hcs]
    ring
  have hP1n : ¬((3:ℚ)/20 <
      |VerifyScores.calculated_rel_score
        ⟨[("check_1_primary_intent", VerifyScores.CheckVal.isDict (some 20) none)],
          [], some 10, some 0, some 0⟩ -
        (⟨[("check_1_primary_intent", VerifyScores.CheckVal.isDict (some 20) none)],
          [], some 10, some 0, some 0⟩ :
          VerifyScores.JudgeResult).relevance_format_score.getD 0|) := by
    have hd : (⟨[("check_1_primary_intent", VerifyScores.CheckVal.isDict (some 20) none)],
        [], some 10, some 0, some 0⟩ :
        VerifyScores.JudgeResult).relevance_format_score.getD 0 = 10 := rfl
    rw [hcr, hd, sub_self, abs_zero]
    norm_num
  have hP2n : ¬((3:ℚ)/20 <
      |VerifyScores.calculated_ser_score
        ⟨[("check_1_primary_intent", VerifyScores.CheckVal.isDict (some 20) none)],
          [], some 10, some 0, some 0⟩ -
        (⟨[("check_1_primary_intent", VerifyScores.CheckVal.isDict (some 20) none)],
          [], some 10, some 0, some 0⟩ :
          VerifyScores.JudgeResult).serendipity_score.getD 0|) := by
    have hd : (⟨[("check_1_primary_intent", VerifyScores.CheckVal.isDict (some 20) none)],
        [], some 10, some 0, some 0⟩ :
        VerifyScores.JudgeResult).serendipity_score.getD 0 = 0 := rfl
    rw [hcs, hd, sub_self, abs_zero]
    norm_num
  have hP3 : (3:ℚ)/20 <
      |VerifyScores.calculated_weighted
        ⟨[("check_1_primary_intent", VerifyScores.CheckVal.isDict (some 20) none)],
          [], some 10, some 0, some 0⟩ -
        (⟨[("check_1_primary_intent", VerifyScores.CheckVal.isDict (some 20) none)],
          [], some 10, some 0, some 0⟩ :
          VerifyScores.JudgeResult).weighted_score.getD 0| := by
    have hd : (⟨[("check_1_primary_intent", VerifyScores.CheckVal.isDict (some 20) none)],
        [], some 10, some 0, some 0⟩ :
        VerifyScores.JudgeResult).weighted_score.getD 0 = 0 := rfl
    rw [hcw, hd, sub_zero, abs_of_nonneg (by norm_num)]
    norm_num
  have hrun : GradeFuzzy.verify_and_recalculate_scores
      ⟨[("check_1_primary_intent", VerifyScores.CheckVal.isDict (some 20) none)],
        [], some 10, some 0, some 0⟩ =
      Except.ok
        ((⟨[("check_1_primary_intent", VerifyScores.CheckVal.isDict (some 20) none)],
          [], some 10, some 0, some 7⟩ : VerifyScores.JudgeResult),
         ⟨false, false, true⟩) := by
    rw [GradeFuzzy.verify_no_gate_eval
      ⟨[("check_1_primary_intent", VerifyScores.CheckVal.isDict (some 20) none)],
        [], some 10, some 0, some 0⟩ none none rfl rfl]
    simp only [decide_eq_true_eq]
    rw [if_neg hP1n, if_neg hP2n, if_pos hP3, decide_eq_false hP1n, decide_eq_false hP2n,
      decide_eq_true hP3, hcw]
  have h := score_mismatch_tolerance
    ⟨[("check_1_primary_intent", VerifyScores.CheckVal.isDict (some 20) none)],
      [], some 10, some 0, some 0⟩
    none none
    ⟨[("check_1_primary_intent", VerifyScores.CheckVal.isDict (some 20) none)],
      [], some 10, some 0, some 7⟩
    ⟨false, false, true⟩ rfl rfl hrun
  exact ⟨hrun, (h.1 hP3).1, (h.2.2.2.1 hP1n).1⟩

/-! ## Claim C10 -/

/-- C10 counterexample: a record binding the gate key to a non-dict value has
no gate violation, yet grade_fuzzy_queries.verify_and_recalculate_scores is
not total on it: the .get call on the non-dict gate entry raises
AttributeError instead of skipping the malformed value. -/
theorem malformed_gate_counterexample :
    GradeFuzzy.verify_and_recalculate_scores
      ⟨[("check_6_profile_dietary_gate", VerifyScores.CheckVal.notDict)],
        [], none, none, none⟩ =
      Except.error "AttributeError: is_gate_violation lookup on a non-dict" ∧
    ("check_6_profile_dietary_gate", VerifyScores.CheckVal.notDict) ∈
      (⟨[("check_6_profile_dietary_gate", VerifyScores.CheckVal.notDict)],
        [], none, none, none⟩ : VerifyScores.JudgeResult).relevance_format_checks := by
  constructor
  · rfl
  · exact List.mem_cons_self _ _

/-- C10 (amended): provided the gate entry, when present, is bound to a dict
(the gate extraction at line 712 assumes one) and carries no violation,
grade_fuzzy_queries.verify_and_recalculate_scores is total on malformed check
entries: every other non-dict check value is skipped by the isinstance guard,
and a check dict with no points key contributes 0 to the recomputed sum, so
malformed judge output lowers the recomputed score instead of raising. -/
theorem malformed_checks_tolerated (r : VerifyScores.JudgeResult)
    (pts : Option ℚ) (gv : Option Bool)
    (hgate : VerifyScores.getGateCheck r.relevance_format_checks =
      VerifyScores.CheckVal.isDict pts gv)
    (hnoviol : gv.getD false = false) :
    (∃ out, GradeFuzzy.verify_and_recalculate_scores r = Except.ok out) ∧
    (∀ (cs : List (String × VerifyScores.CheckVal)) (name : String),
      VerifyScores.sumPoints ((name, VerifyScores.CheckVal.notDict) :: cs) =
        VerifyScores.sumPoints cs) ∧
    (∀ (cs : List (String × VerifyScores.CheckVal)) (name : String) (gv2 : Option Bool),
      VerifyScores.sumPoints ((name, VerifyScores.CheckVal.isDict none gv2) :: cs) =
        VerifyScores.sumPoints cs) := by
  refine ⟨⟨_, GradeFuzzy.verify_no_gate_eval r pts gv hgate hnoviol⟩, ?_, ?_⟩
  · intro cs name
    rfl
  · intro cs name gv2
    simp [VerifyScores.sumPoints]

/-- Witness for C10: a record with a well-formed gate entry, a non-dict junk
entry, and a points-free check dict is processed without error. -/
theorem malformed_checks_tolerated_witness :
    (∃ out, GradeFuzzy.verify_and_recalculate_scores
      ⟨[("check_6_profile_dietary_gate", VerifyScores.CheckVal.isDict none (some false)),
        ("junk", VerifyScores.CheckVal.notDict),
        ("check_2_descriptive_traits", VerifyScores.CheckVal.isDict none none)],
        [], none, none, none⟩ = Except.ok out) ∧
    VerifyScores.sumPoints [("junk", VerifyScores.CheckVal.notDict)] =
      VerifyScores.sumPoints [] ∧
    VerifyScores.sumPoints
      [("check_2_descriptive_traits", VerifyScores.CheckVal.isDict none none)] =
      VerifyScores.sumPoints [] := by
  have h := malformed_checks_tolerated
    ⟨[("check_6_profile_dietary_gate", VerifyScores.CheckVal.isDict none (some false)),
      ("junk", VerifyScores.CheckVal.notDict),
      ("check_2_descriptive_traits", VerifyScores.CheckVal.isDict none none)],
      [], none, none, none⟩
    none (some false) rfl rfl
  exact ⟨h.1, h.2.1 [] "junk", h.2.2 [] "check_2_descriptive_traits" none⟩

/-! ## Category/Facet aggregation (structured_query_store_evaluator.py,
src/unnamed/part_000) -/

namespace FacetAggregator

/-- The facet table score_facet_to_category_mapping of
structured_query_store_evaluator.py lines 355-370: facet name to weighted
member checks. -/
def score_facet_to_category_mapping : List (String × List (String × ℚ)) :=
  [("main_dish___cuisine",
    [("is_serving_matched", 3), ("is_primary_serving", 3),
     ("is_serving_more_than_three_items", 1)]),
   ("dietary_restrictions", [("is_dietary_serving", 1)]),
   ("restaurant___store_name", [("is_exact_restaurant", 3), ("is_similar_restaurant", 2)]),
   ("flavor", [("is_flavor_match", 1)]),
   ("preparation_style", [("is_prep_style_matched", 1)]),
   ("portion_size", [("is_portion_matched", 1)]),
   ("groups", [("is_group_matched", 1)]),
   ("ingredients", [("is_ingredient_present", 1)]),
   ("location", [("is_nearby", 1)]),
   ("speed", [("is_fast_delivery", 1), ("is_fast_delivery_check", 2)]),
   ("quality___rating", [("is_top_rated", 1), ("is_overall_rating_good", 1)]),
   ("price", [("is_price_match", 1)]),
   ("open_hour_check", [("is_store_open", 1)]),
   ("quality_rating_larger_than_45", [("is_overall_rating_good", 1)])]

/-- Whether the first list is an initial segment of the second. -/
def leadEq : List Char → List Char → Bool
  | [], _ => true
  | _ :: _, [] => false
  | p :: ps, h :: hs => p == h && leadEq ps hs

/-- Substring occurrence test on character lists. -/
def hasSub (pat : List Char) : List Char → Bool
  | [] => leadEq pat []
  | c :: t => leadEq pat (c :: t) || hasSub pat t

/-- pandas Series.str.contains(cat) applied to one string: the facet names of
the table contain no regex metacharacters, so the pandas regex containment is
plain substring containment. -/
def strContains (hay pat : String) : Bool := hasSub pat.toList hay.toList

/-- The ",".join applied to the per-query category list at line 379 of the
evaluator (Python str.join semantics). -/
def joinCategories : List String → String
  | [] => ""
  | [m] => m
  | m :: rest => m ++ "," ++ joinCategories rest

/-- The row filter df_join[df_join[query_category].str.contains(cat)] at line
385, applied to one row whose category membership is the given list. -/
def selectRow (membership : List String) (cat : String) : Bool :=
  strContains (joinCategories membership) cat

/-- The accumulation loop of map_score (lines 389-396): (sum_score,
true_score) over the facet member checks,, where a member contributes its
weight to true_score exactly when the row answers Yes for its column. -/
def mapScoreAux (row : String → String) : List (String × ℚ) → ℚ × ℚ
  | [] => (0, 0)
  | (col_name, score) :: rest =>
    let st := mapScoreAux row rest
    (st.1 + score, st.2 + (if row col_name = "Yes" then 1 else 0) * score)

/-- map_score (structured_query_store_evaluator.py lines 389-396): the
facet-local relevance of one row, true_score / sum_score * 100, over ONLY the
facet member checks. -/
def map_score (row : String → String) (members : List (String × ℚ)) : ℚ :=
  let st := mapScoreAux row members
  st.2 / st.1 * 100

theorem leadEq_append (pat rest : List Char) : leadEq pat (pat ++ rest) = true := by
  induction pat with
  | nil => rfl
  | cons p ps ih => simp [leadEq, ih]

theorem hasSub_of_leadEq (pat hay : List Char) (h : leadEq pat hay = true) :
    hasSub pat hay = true := by
  cases hay with
  | nil => exact h
  | cons c t => simp [hasSub, h]

theorem hasSub_cons (pat t : List Char) (c : Char) (h : hasSub pat t = true) :
    hasSub pat (c :: t) = true := by
  simp [hasSub, h]

theorem hasSub_append (pat r : List Char) : ∀ l, hasSub pat (l ++ (pat ++ r)) = true := by
  intro l
  induction l with
  | nil => exact hasSub_of_leadEq pat (pat ++ r) (leadEq_append pat r)
  | cons c l' ih => exact hasSub_cons _ _ _ ih

theorem join_decomp (cat : String) (membership : List String) (hmem : cat ∈ membership) :
    ∃ l r, (joinCategories membership).toList = l ++ (cat.toList ++ r) := by
  induction membership with
  | nil => simp at hmem
  | cons m rest ih =>
    rcases List.mem_cons.mp hmem with rfl | hmem'
    · cases rest with
      | nil =>
        refine ⟨[], [], ?_⟩
        simp [joinCategories]
      | cons x xs =>
        refine ⟨[], (",".toList ++ (joinCategories (x :: xs)).toList), ?_⟩
        show (cat ++ "," ++ joinCategories (x :: xs)).toList = _
        simp [String.toList, String.data_append]
    · cases rest with
      | nil => simp at hmem'
      | cons x xs =>
        obtain ⟨l', r', hl⟩ := ih hmem'
        refine ⟨m.toList ++ ",".toList ++ l', r', ?_⟩
        show (m ++ "," ++ joinCategories (x :: xs)).toList = _
        have hl2 : (joinCategories (x :: xs)).data = l' ++ (cat.data ++ r') := hl
        simp [String.toList, String.data_append, hl2]

theorem mapScoreAux_characterization (row : String → String)
    (members : List (String × ℚ)) :
    (mapScoreAux row members).1 = (members.map Prod.snd).sum ∧
    (mapScoreAux row members).2 =
      ((members.filter (fun p => row p.1 == "Yes")).map Prod.snd).sum := by
  induction members with
  | nil => simp [mapScoreAux]
  | cons hd tl ih =>
    obtain ⟨ih1, ih2⟩ := ih
    obtain ⟨col, w⟩ := hd
    by_cases hy : row col = "Yes"
    · simp [mapScoreAux, List.filter_cons, hy, ih1, ih2]
      constructor <;> ring
    · simp [mapScoreAux, List.filter_cons, hy, ih1, ih2]
      ring

end FacetAggregator

/-! ## Claim C9 -/

/-- C9 counterexample: the row selection is substring containment on the
comma-joined membership string, not list membership: a row whose only category
label is overpriced is selected for the facet price, although price is not one
of its categories. -/
theorem facet_selection_counterexample :
    FacetAggregator.selectRow ["overpriced"] "price" = true ∧
    "price" ∉ (["overpriced"] : List String) := by
  constructor
  · decide
  · decide

/-- C9 (amended): the facet aggregator selects the rows whose comma-joined
category-membership string CONTAINS the facet name as a substring (so list
membership implies selection, but not conversely), and computes each selected
row's facet-local relevance as the sum of the weights of the facet member
checks answered Yes divided by the total weight of all the facet member
checks, times 100, ignoring every check outside the facet. -/
theorem facet_selection_and_local_score (membership : List String) (cat : String)
    (row : String → String) (members : List (String × ℚ)) :
    (cat ∈ membership → FacetAggregator.selectRow membership cat = true) ∧
    FacetAggregator.map_score row members =
      ((members.filter (fun p => row p.1 == "Yes")).map Prod.snd).sum /
        ((members.map Prod.snd).sum) * 100 := by
  constructor
  · intro hmem
    obtain ⟨l, r, hl⟩ := FacetAggregator.join_decomp cat membership hmem
    unfold FacetAggregator.selectRow FacetAggregator.strContains
    rw [hl]
    exact FacetAggregator.hasSub_append cat.toList r l
  · obtain ⟨h1, h2⟩ := FacetAggregator.mapScoreAux_characterization row members
    simp only [FacetAggregator.map_score]
    rw [h1, h2]

/-- Witness for C9: a row in the categories price and flavor is selected for
the price facet, and with is_price_match answered Yes its facet-local price
relevance is 100. -/
theorem facet_selection_and_local_score_witness :
    FacetAggregator.selectRow ["price", "flavor"] "price" = true ∧
    FacetAggregator.map_score (fun c => if c = "is_price_match" then "Yes" else "No")
      [("is_price_match", 1)] = 100 := by
  have h := facet_selection_and_local_score ["price", "flavor"] "price"
    (fun c => if c = "is_price_match" then "Yes" else "No") [("is_price_match", 1)]
  refine ⟨h.1 (by decide), ?_⟩
  rw [h.2]
  simp
